import Mathlib

/-!
# Verification of the track-resolution engine

A shallow embedding, in Lean 4, of the candidate-scoring and track-resolution
engine of the spotify-playlist-downloader repository:

* `src/resolver.py`     — `AntigravityResolver` (similarity functions, confidence
  scorer, ranker);
* `src/ytmusic_resolver.py` — `YTMusicResolver` (candidate gathering, conversion
  of raw search results);
* `src/isrc_resolver.py`  — `AntigravityISRCResolver` (ISRC-first pipeline with
  collision detection and accessibility validation);
* `src/smart_resolver.py` — `SmartResolver` (operational pipeline with fallback).

Python strings are modelled as Lean `String`s (over their character lists),
Python floats as `ℚ` (every constant of the scorer is a small decimal and no
decision point of the code is within floating-point error of a tie, so the
rational model is faithful at every comparison the code performs), Python sets
of words as deduplicated lists, and dictionaries/dataclasses as structures.
External network calls (YTMusic search, Spotify lookup, watch-playlist probe)
are modelled as oracle functions returning `Except PyErr α`; a `try/except` of
the source becomes an explicit `match` on that `Except`.

The regular-expression substitutions performed by the source are modelled by
dedicated executable scanners (`subLitAux`, `subParenLazyAux`, `subAsideAux`,
`subTailAux`) implementing the exact leftmost, non-overlapping,
case-insensitive semantics of `re.sub` for the pattern shapes the source uses
(plain literals, `\(kw.*?\)` lazy parentheticals, `\s*\(.*?\)\s*` asides and
`\s*kw.*` tail-erasers; `.` never matches a newline).
-/

/-! ## Python string primitives -/

/-- Model of `str.lower()` (ASCII case folding, which is all the source's inputs use). -/
def pyLower (s : String) : String := String.mk (s.toList.map Char.toLower)

/-- Python `\s` / `str.split()` whitespace. -/
def isPySpace (c : Char) : Bool :=
  c = ' ' || c = '\t' || c = '\n' || c = '\r' || c = '\x0b' || c = '\x0c'

/-- Python `\w`: alphanumeric or underscore. -/
def isWordChar (c : Char) : Bool := c.isAlphanum || c = '_'

/-- Test that `pat` occurs as a contiguous substring of `hay` (Python `pat in hay`). -/
def listContains : List Char → List Char → Bool
  | [], pat => pat.isEmpty
  | h :: rest, pat => pat.isPrefixOf (h :: rest) || listContains rest pat

/-- Python `sub in s` on strings. -/
def strContains (hay sub : String) : Bool := listContains hay.toList sub.toList

/-- Helper for `pyWords`: accumulate the current word (reversed). -/
def pyWordsAux : List Char → List Char → List String
  | [], cur => if cur.isEmpty then [] else [String.mk cur.reverse]
  | c :: rest, cur =>
    if isPySpace c then
      if cur.isEmpty then pyWordsAux rest []
      else String.mk cur.reverse :: pyWordsAux rest []
    else pyWordsAux rest (c :: cur)

/-- Python `str.split()` with no argument: split on whitespace runs, no empties. -/
def pyWords (s : String) : List String := pyWordsAux s.toList []

/-- Python `str.strip()`. -/
def pyStrip (s : String) : String :=
  String.mk (((s.toList.dropWhile (isPySpace ·)).reverse.dropWhile (isPySpace ·)).reverse)

/-- Helper for `re.sub(r'\s+', ' ', s)`: collapse whitespace runs to one space.
The flag records whether we are inside a run already replaced. -/
def collapseWsAux : Bool → List Char → List Char
  | _, [] => []
  | inRun, c :: rest =>
    if isPySpace c then
      if inRun then collapseWsAux true rest else ' ' :: collapseWsAux true rest
    else c :: collapseWsAux false rest

/-- Model of `re.sub(r'[^\w\s]', ' ', s)`: non-word, non-space characters become spaces. -/
def pyCleanPunct (s : List Char) : List Char :=
  s.map (fun c => if isWordChar c || isPySpace c then c else ' ')

/-! ## `re.sub` scanners

Each scanner walks the string left to right; at each position it attempts the
pattern, and on success skips the matched characters (replacement is always the
empty string in the source), otherwise emits one character and advances — the
leftmost, non-overlapping semantics of `re.sub`.  Fuel is the string length
plus one; every step consumes at least one character. -/

/-- Global case-insensitive deletion of a literal pattern (`pl` pre-lowered). -/
def subLitAux (pl : List Char) : Nat → List Char → List Char
  | 0, s => s
  | _, [] => []
  | fuel+1, ch :: rest =>
    if pl.isPrefixOf ((ch :: rest).map Char.toLower) then
      subLitAux pl fuel ((ch :: rest).drop pl.length)
    else ch :: subLitAux pl fuel rest

/-- Model of `re.sub(pat, '', s, flags=IGNORECASE)` for a literal `pat`. -/
def subLit (pat : String) (s : String) : String :=
  String.mk (subLitAux (pat.toList.map Char.toLower) (s.toList.length + 1) s.toList)

/-- Characters consumed up to and including the first `close`; `none` if a
newline intervenes or no `close` exists (`.` does not match newlines). -/
def findClose (close : Char) : List Char → Option Nat
  | [] => none
  | c :: rest =>
    if c = close then some 1
    else if c = '\n' then none
    else (findClose close rest).map (· + 1)

/-- Scanner for `\(kw.*?\)` (case-insensitive, `kwl` pre-lowered). -/
def subParenLazyAux (kwl : List Char) : Nat → List Char → List Char
  | 0, s => s
  | _, [] => []
  | fuel+1, ch :: rest =>
    if ('(' :: kwl).isPrefixOf ((ch :: rest).map Char.toLower) then
      match findClose ')' ((ch :: rest).drop (kwl.length + 1)) with
      | some d => subParenLazyAux kwl fuel ((ch :: rest).drop (kwl.length + 1 + d))
      | none => ch :: subParenLazyAux kwl fuel rest
    else ch :: subParenLazyAux kwl fuel rest

/-- Model of `re.sub(r'\(kw.*?\)', '', s, flags=IGNORECASE)`. -/
def subParenLazy (kw : String) (s : String) : String :=
  String.mk (subParenLazyAux (kw.toList.map Char.toLower) (s.toList.length + 1) s.toList)

/-- Scanner for `\s*o.*?c\s*` (the parenthesised/bracketed-aside remover of
`_clean_artist`): optional leading whitespace, `openC`, lazy body up to the
first `closeC`, then greedy trailing whitespace. -/
def subAsideAux (openC closeC : Char) : Nat → List Char → List Char
  | 0, s => s
  | _, [] => []
  | fuel+1, ch :: rest =>
    let s := ch :: rest
    let k := (s.takeWhile (isPySpace ·)).length
    match s.drop k with
    | c2 :: t2 =>
      if c2 = openC then
        match findClose closeC t2 with
        | some d =>
          let afterClose := t2.drop d
          let m := (afterClose.takeWhile (isPySpace ·)).length
          subAsideAux openC closeC fuel (afterClose.drop m)
        | none => ch :: subAsideAux openC closeC fuel rest
      else ch :: subAsideAux openC closeC fuel rest
    | [] => ch :: subAsideAux openC closeC fuel rest

/-- Model of `re.sub(r'\s*\(.*?\)\s*', '', s)` / `re.sub(r'\s*\[.*?\]\s*', '', s)`. -/
def subAside (openC closeC : Char) (s : String) : String :=
  String.mk (subAsideAux openC closeC (s.toList.length + 1) s.toList)

/-- Scanner for `\s*kw.*` (case-insensitive): optional whitespace, the keyword,
then everything to the end of the line (`.*` stops at a newline). -/
def subTailAux (kwl : List Char) : Nat → List Char → List Char
  | 0, s => s
  | _, [] => []
  | fuel+1, ch :: rest =>
    let s := ch :: rest
    let k := (s.takeWhile (isPySpace ·)).length
    let t := s.drop k
    if kwl.isPrefixOf (t.map Char.toLower) then
      let afterKw := t.drop kwl.length
      let lineLen := (afterKw.takeWhile (fun c => !(c == '\n'))).length
      subTailAux kwl fuel (afterKw.drop lineLen)
    else ch :: subTailAux kwl fuel rest

/-- Model of `re.sub(r'\s*kw.*', '', s, flags=IGNORECASE)` for a literal keyword. -/
def subTail (kw : String) (s : String) : String :=
  String.mk (subTailAux (kw.toList.map Char.toLower) (s.toList.length + 1) s.toList)

/-! ## Word sets (Python `set(str.split())`) -/

/-- The set of whitespace-separated words of `s`, as a deduplicated list. -/
def wordSet (s : String) : List String := (pyWords s).dedup

/-- Model of `len(set(a.split()) & set(b.split()))`. -/
def interCard (a b : String) : Nat :=
  ((wordSet a).filter (fun w => (wordSet b).contains w)).length

/-- Model of `len(set(a.split()) | set(b.split()))`. -/
def unionCard (a b : String) : Nat := ((wordSet a) ++ (wordSet b)).dedup.length

example : pyLower "AbC xY" = "abc xy" := by decide
example : strContains "song (remix)" "remix" = true := by decide
example : strContains "song" "mv" = false := by decide
example : pyWords "  a bb  a " = ["a", "bb", "a"] := by decide
example : wordSet "a bb a" = ["bb", "a"] := by decide
example : interCard "abc remix" "abc" = 1 := by decide
example : unionCard "abc remix" "abc" = 2 := by decide
example : subLit "(live)" "Song (Live)" = "Song " := by decide
example : subParenLazy "remix" "abc (remix cover)" = "abc " := by decide
example : subParenLazy "remix" "abc (remix" = "abc (remix" := by decide
example : subAside '(' ')' "a (b) c" = "ac" := by decide
example : subTail "feat." "A feat. B" = "A" := by decide
example : subTail "&" "A & B" = "A" := by decide
example : pyStrip "  a b  " = "a b" := by decide

/-! ## Data model (`src/resolver.py` dataclasses)

`TrackMetadata.isrc` is a Python string that may also be `None` in the
dictionaries the pipelines build; every use of it in the source is either a
truthiness test or a `.lower()` guarded by that test, so `None` is modelled as
`""` without observable difference. -/

structure TrackMetadata where
  title : String
  artist : String
  album : String := ""
  duration_ms : Int := 0
  isrc : String := ""
  year : String := ""
  track_number : Int := 0
  deriving DecidableEq, Repr

/-- Embedding of `TrackMetadata.get_duration_seconds`. -/
def get_duration_seconds (t : TrackMetadata) : ℚ :=
  if t.duration_ms ≠ 0 then (t.duration_ms : ℚ) / 1000 else 0

structure Candidate where
  video_id : String
  title : String
  artists : List String
  album : String := ""
  duration : ℚ := 0
  isrc : String := ""
  source : String := "unknown"
  deriving DecidableEq, Repr

/-! ## `AntigravityResolver` similarity functions -/

namespace AntigravityResolver

/-- One entry of `self.unwanted_patterns`: either a literal regex or a
`\(kw.*?\)` lazy parenthetical. -/
inductive TitlePat where
  | lit (pat : String)
  | parenLazy (kw : String)
  deriving DecidableEq, Repr

/-- Model of `re.sub(p, '', s, flags=IGNORECASE)` for the two pattern shapes used. -/
def applyTitlePat (s : String) (p : TitlePat) : String :=
  match p with
  | .lit pat => subLit pat s
  | .parenLazy kw => subParenLazy kw s

/-- The list `self.unwanted_patterns`, in source order. -/
def unwanted_patterns : List TitlePat :=
  [.lit "(live)", .parenLazy "live", .lit "live at", .lit "live from",
   .lit "(remix)", .parenLazy "remix", .lit "remix by",
   .lit "(cover)", .parenLazy "cover", .lit "cover by",
   .lit "(acoustic)", .parenLazy "acoustic",
   .lit "(karaoke)", .parenLazy "karaoke",
   .lit "(instrumental)", .parenLazy "instrumental",
   .lit "(demo)", .parenLazy "demo",
   .lit "(extended)", .parenLazy "extended",
   .parenLazy "radio", .lit "(edit)", .parenLazy "version",
   .lit "slowed", .lit "reverb", .lit "nightcore",
   .lit "8d audio", .lit "spatial audio", .lit "dolby atmos"]

/-- Embedding of `AntigravityResolver._clean_title`. -/
def clean_title (title : String) : String :=
  if title = "" then ""
  else
    let cleaned := unwanted_patterns.foldl applyTitlePat title
    pyStrip (String.mk (collapseWsAux false (pyCleanPunct cleaned.toList)))

/-- Embedding of `AntigravityResolver._clean_artist`. -/
def clean_artist (artist : String) : String :=
  if artist = "" then ""
  else
    let c1 := subAside '(' ')' artist
    let c2 := subAside '[' ']' c1
    let c3 := subTail "feat." c2
    let c4 := subTail "&" c3
    pyStrip (String.mk (collapseWsAux false c4.toList))

/-- Embedding of `AntigravityResolver._calculate_title_similarity`. -/
def calculate_title_similarity (target_title candidate_title : String) : ℚ :=
  if target_title = "" ∨ candidate_title = "" then 0
  else
    let target_clean := clean_title target_title
    let candidate_clean := clean_title candidate_title
    if pyLower target_clean = pyLower candidate_clean then 1
    else
      let tl := pyLower target_clean
      let cl := pyLower candidate_clean
      if wordSet tl = [] ∨ wordSet cl = [] then 0
      else if unionCard tl cl = 0 then 0
      else
        let jaccard : ℚ := (interCard tl cl : ℚ) / (unionCard tl cl : ℚ)
        let jaccard := if strContains cl tl || strContains tl cl then jaccard + 1/5 else jaccard
        min 1 jaccard

/-- The word-overlap accumulation step of `_calculate_artist_similarity`'s
loop: update `best_match` with this artist's token-Jaccard similarity when
both word sets (and their union) are non-empty. -/
def jaccardStep (tcl : String) (best : ℚ) (artist : String) : ℚ :=
  let acl := pyLower (clean_artist artist)
  if wordSet tcl ≠ [] ∧ wordSet acl ≠ [] ∧ unionCard tcl acl ≠ 0 then
    max best ((interCard tcl acl : ℚ) / (unionCard tcl acl : ℚ))
  else best

/-- The loop body of `_calculate_artist_similarity`: sequential scan with
early `return 1.0` on an exact match and `return 0.8` on containment,
otherwise accumulating the best token-Jaccard. `tcl` is the cleaned,
lowercased target artist. -/
def artistSimLoop (tcl : String) (best : ℚ) : List String → ℚ
  | [] => best
  | artist :: rest =>
    let acl := pyLower (clean_artist artist)
    if tcl = acl then 1
    else if strContains acl tcl || strContains tcl acl then 4/5
    else artistSimLoop tcl (jaccardStep tcl best artist) rest

/-- Embedding of `AntigravityResolver._calculate_artist_similarity`. -/
def calculate_artist_similarity (target_artist : String) (candidate_artists : List String) : ℚ :=
  if target_artist = "" ∨ candidate_artists = [] then 0
  else artistSimLoop (pyLower (clean_artist target_artist)) 0 candidate_artists

/-- Embedding of `AntigravityResolver._calculate_duration_similarity`. -/
def calculate_duration_similarity (target_duration candidate_duration : ℚ) : ℚ :=
  if target_duration ≤ 0 ∨ candidate_duration ≤ 0 then 0
  else
    let diff := |target_duration - candidate_duration|
    if diff ≤ 1 then 1
    else if diff ≤ 3/2 then 3/5
    else if diff ≤ 2 then 3/10
    else if diff ≤ 3 then 1/10
    else 0

/-- Embedding of `AntigravityResolver._calculate_string_similarity`. -/
def calculate_string_similarity (str1 str2 : String) : ℚ :=
  if str1 = "" ∨ str2 = "" then 0
  else if pyLower str1 = pyLower str2 then 1
  else if strContains (pyLower str2) (pyLower str1) || strContains (pyLower str1) (pyLower str2) then 7/10
  else
    let w1 := pyLower str1
    let w2 := pyLower str2
    if wordSet w1 ≠ [] ∧ wordSet w2 ≠ [] ∧ unionCard w1 w2 ≠ 0 then
      (interCard w1 w2 : ℚ) / (unionCard w1 w2 : ℚ)
    else 0

/-- The list `music_video_indicators`, in source order. -/
def music_video_indicators : List String :=
  ["official video", "music video", "mv", "official mv",
   "video clip", "clip", "visual", "visualizer",
   "lyric video", "lyrics video", "animated",
   "remix", "live", "acoustic", "instrumental",
   "cover", "karaoke", "slowed",
   "concert", "perform", "tour", "8d", "8d audio"]

/-- The per-indicator penalty tiers of `_calculate_unwanted_penalty`
(natural numbers; every Python value there is integral). -/
def indicatorPenalty (ind : String) : Nat :=
  if ind ∈ ["official video", "music video", "mv", "official mv"] then 50
  else if ind ∈ ["video clip", "clip", "visual", "visualizer"] then 40
  else if ind ∈ ["remix", "live", "slowed"] then 30
  else if ind ∈ ["lyric video", "lyrics video", "animated"] then 25
  else if ind ∈ ["acoustic", "instrumental", "cover", "karaoke"] then 20
  else 15

/-- Embedding of `AntigravityResolver._calculate_unwanted_penalty` (a natural number:
all tier values are integral and only accumulate). -/
def calculate_unwanted_penalty (title : String) : Nat :=
  if title = "" then 0
  else
    let tl := pyLower title
    music_video_indicators.foldl
      (fun penalty ind => if strContains tl ind then penalty + indicatorPenalty ind else penalty) 0

/-- Embedding of `AntigravityResolver._calculate_confidence`.  Returns `(score, confidence)`
with `confidence = max 0 (score / 100)`. -/
def calculate_confidence (target : TrackMetadata) (candidate : Candidate) : ℚ × ℚ :=
  let isrcPts : ℚ :=
    if target.isrc ≠ "" ∧ candidate.isrc ≠ "" ∧ pyLower target.isrc = pyLower candidate.isrc
    then 40 else 0
  let title_score := calculate_title_similarity target.title candidate.title
  let artist_score := calculate_artist_similarity target.artist candidate.artists
  let duration_score :=
    calculate_duration_similarity (get_duration_seconds target) candidate.duration
  let albumPts : ℚ :=
    if target.album ≠ "" ∧ candidate.album ≠ "" then
      calculate_string_similarity (pyLower target.album) (pyLower candidate.album) * 5
    else 0
  let penalty : ℚ := (calculate_unwanted_penalty candidate.title : ℚ)
  let exactBonus : ℚ := if 9/10 ≤ title_score ∧ 9/10 ≤ artist_score then 20 else 0
  let cl := pyLower candidate.title
  let featBonus : ℚ :=
    if (strContains cl "feat." || strContains cl "featuring")
        ∧ ¬ strContains cl "instrumental" ∧ ¬ strContains cl "remix"
        ∧ ¬ strContains cl "acapella" then 15 else 0
  let instrPenalty : ℚ := if strContains cl "instrumental" then 25 else 0
  let score := isrcPts + title_score * 35 + artist_score * 25 + duration_score * 10
      + albumPts - penalty + exactBonus + featBonus - instrPenalty
  (score, max 0 (score / 100))

end AntigravityResolver

example : AntigravityResolver.clean_title "(live)" = "" := by decide
example : AntigravityResolver.clean_title "Song (Remix)" = "Song" := by decide
example : AntigravityResolver.clean_title "abc (remix" = "abc remix" := by decide
example : AntigravityResolver.clean_title "abc (remix cover)" = "abc" := by decide
example : AntigravityResolver.clean_artist "Ed (x) [y] feat. Q" = "Ed" := by decide
example : AntigravityResolver.calculate_unwanted_penalty "song (remix)" = 30 := by decide
example : AntigravityResolver.calculate_unwanted_penalty "song (official music video)" = 50 := by decide

/-! ## The ranker (`AntigravityResolver.resolve`)

Python's `list.sort(key=..., reverse=True)` is a stable descending sort: it
orders by key descending and preserves the original relative order of entries
with equal keys.  We realise it as an insertion sort in which a newly
considered (earlier-in-the-original-list) element is placed before the first
already-sorted element whose key is not larger. -/

section StableSort

variable {α : Type} (key : α → ℚ)

/-- Insert `x` into a descending-sorted list, before the first element whose
key is ≤ `key x` (so earlier-scanned elements win ties). -/
def insertDesc (x : α) : List α → List α
  | [] => [x]
  | y :: ys => if key x < key y then y :: insertDesc x ys else x :: y :: ys

/-- Stable descending sort by `key` (the semantics of
`l.sort(key=..., reverse=True)`). -/
def sortDesc : List α → List α
  | [] => []
  | x :: xs => insertDesc key x (sortDesc xs)

/-- The first element of `l` attaining the maximal key (the head of a stable
descending sort). -/
def firstMax : List α → Option α
  | [] => none
  | x :: xs =>
    match firstMax xs with
    | none => some x
    | some y => if key x < key y then some y else some x

end StableSort

namespace AntigravityResolver

/-- The loop body of `resolve`: append `(candidate, score, confidence)` to
`scored_candidates` only when `confidence > 0`. -/
def scoreEntry (target : TrackMetadata) (c : Candidate) : Option (Candidate × ℚ × ℚ) :=
  let p := calculate_confidence target c
  if 0 < p.2 then some (c, p.1, p.2) else none

/-- Embedding of `AntigravityResolver.resolve`: score all candidates, keep the strictly
positive confidences, sort stably by confidence descending, and return the top
entry iff its confidence reaches the threshold. -/
def resolve (confidence_threshold : ℚ) (target : TrackMetadata)
    (candidates : List Candidate) : Option (Candidate × ℚ) :=
  if candidates = [] then none
  else
    let scored := candidates.filterMap (scoreEntry target)
    let sorted := sortDesc (fun x => x.2.2) scored
    match sorted with
    | [] => none
    | best :: _ =>
      if confidence_threshold ≤ best.2.2 then some (best.1, best.2.2) else none

end AntigravityResolver

/-! ## `YTMusicResolver` (`src/ytmusic_resolver.py`)

External calls are oracles returning `Except PyErr α`.  `PyErr.nameError`
stands for the `NameError` raised by evaluating the undefined name `verbose`
in `_convert_to_candidate`; `PyErr.external` stands for any exception raised
by a client call. -/

inductive PyErr where
  | nameError
  | external (msg : String)
  deriving DecidableEq, Repr

/-- One raw YTMusic search-result record (the dictionary fields the source
reads, with `""`/`none`/`0` for missing keys as produced by `.get`).
`artists_raw` holds the artist names as extracted from the per-artist
dictionaries (an empty string for a missing name). -/
structure SearchResult where
  resultType : String := "song"
  videoId : String := ""
  title : String := ""
  artists_raw : List String := []
  album : Option String := none
  duration_seconds : ℚ := 0
  isrc : String := ""
  deriving DecidableEq, Repr

/-- A YTMusic watch playlist as read by `_validate_video_id`; `none` models a
falsy (empty/`None`) playlist. -/
structure WatchPlaylist where
  tracksCount : Nat := 0
  headers : List String := []
  deriving DecidableEq, Repr

/-- The YTMusic client: `search(query, filter=..., limit=...)` and
`get_watch_playlist(videoId)` as oracles that may raise. -/
structure YTClient where
  search : Option String → String → Nat → Except PyErr (List SearchResult)
  get_watch_playlist : String → Except PyErr (Option WatchPlaylist)

/-- The resolved-track dictionary built by `YTMusicResolver.resolve_track`. -/
structure ResolvedTrack where
  video_id : String
  title : String
  artists : List String
  album : String
  duration : ℚ
  isrc : String
  confidence : ℚ
  url : String
  resolved : Bool := true
  from_resolver : Bool := true
  deriving DecidableEq, Repr

/-- A track dictionary as passed to `resolve_track` (the `'isrc'` key may hold
`None`, which `dict.get('isrc', '')` does not replace). -/
structure TrackDict where
  title : String := ""
  artist : String := ""
  album : String := ""
  duration_ms : Int := 0
  isrc : Option String := none
  year : String := ""
  track_number : Int := 0
  deriving DecidableEq, Repr

namespace YTMusicResolver

/-- Embedding of `YTMusicResolver._convert_to_candidate`.  For records with a `videoId` and
a `title` and source `"isrc_search"`, the body evaluates the undefined name
`verbose` and raises `NameError`; the function's own `except` handler also
evaluates `verbose`, so the `NameError` propagates out of the function (it
does not return `None`). -/
def convert_to_candidate (result : SearchResult) (source : String) :
    Except PyErr (Option Candidate) :=
  if result.videoId = "" then .ok none
  else if result.title = "" then .ok none
  else if source = "isrc_search" then .error .nameError
  else
    .ok (some
      { video_id := result.videoId
        title := result.title
        artists := result.artists_raw.filter (fun a => a ≠ "")
        album := result.album.getD ""
        duration := result.duration_seconds
        isrc := result.isrc
        source := source })

/-- The `for result in results` loop shared by `_search_by_isrc` and
`_search_by_query`: skip non-song records, append converted candidates.  An
exception from the conversion aborts the loop; the caller's `try/except`
swallows it and the candidates accumulated so far are returned. -/
def searchLoop (source : String) : List SearchResult → List Candidate → List Candidate
  | [], acc => acc
  | r :: rest, acc =>
    if r.resultType ≠ "song" then searchLoop source rest acc
    else
      match convert_to_candidate r source with
      | .error _ => acc
      | .ok none => searchLoop source rest acc
      | .ok (some c) => searchLoop source rest (acc ++ [c])

/-- Embedding of `YTMusicResolver._search_by_isrc` (the whole body is inside `try/except`;
a failing `search` call yields the empty list). -/
def search_by_isrc (yt : YTClient) (isrc : String) : List Candidate :=
  match yt.search (some "songs") isrc 10 with
  | .error _ => []
  | .ok results => searchLoop "isrc_search" results []

/-- The query built by `_search_by_query`:
`' '.join(filter(None, [title, artist] + ([album] if album else [])))`. -/
def buildQuery (m : TrackMetadata) : String :=
  let parts := [m.title, m.artist] ++ (if m.album ≠ "" then [m.album] else [])
  String.intercalate " " (parts.filter (fun p => p ≠ ""))

/-- Embedding of `YTMusicResolver._search_by_query`. -/
def search_by_query (yt : YTClient) (m : TrackMetadata) (max_results : Nat) : List Candidate :=
  match yt.search (some "songs") (buildQuery m) max_results with
  | .error _ => []
  | .ok results => searchLoop "query_search" results []

/-- The candidate-gathering phase of `resolve_track`: identifier-biased search
first (when an ISRC is present), free-text search appended when fewer than 3
candidates were found. -/
def gatherCandidates (yt : YTClient) (m : TrackMetadata) (max_candidates : Nat) : List Candidate :=
  let candidates := if m.isrc ≠ "" then search_by_isrc yt m.isrc else []
  if candidates.length < 3 then candidates ++ search_by_query yt m max_candidates
  else candidates

/-- The `TrackMetadata` built by `resolve_track` from the track dictionary
(`track.get('isrc', '')` may yield `None`, modelled as `""`; both are falsy
and only used under truthiness guards). -/
def targetOfTrack (track : TrackDict) : TrackMetadata :=
  { title := track.title
    artist := track.artist
    album := track.album
    duration_ms := track.duration_ms
    isrc := track.isrc.getD ""
    year := track.year
    track_number := track.track_number }

/-- Embedding of `YTMusicResolver.resolve_track` (`yt = none` models a failed client
construction: the method returns `None` immediately). -/
def resolve_track (yt : Option YTClient) (confidence_threshold : ℚ) (max_candidates : Nat)
    (track : TrackDict) : Option ResolvedTrack :=
  match yt with
  | none => none
  | some client =>
    let target := targetOfTrack track
    let candidates := gatherCandidates client target max_candidates
    if candidates = [] then none
    else
      match AntigravityResolver.resolve confidence_threshold target candidates with
      | none => none
      | some (best, confidence) =>
        some
          { video_id := best.video_id
            title := best.title
            artists := best.artists
            album := best.album
            duration := best.duration
            isrc := best.isrc
            confidence := confidence
            url := "https://music.youtube.com/watch?v=" ++ best.video_id }

/-- Embedding of `resolve_with_ytmusic` (module-level convenience function): builds a
`YTMusicResolver` (whose client construction may fail, yielding `none`) and
runs `resolve_track` with the given threshold. -/
def resolve_with_ytmusic (yt : Option YTClient) (confidence_threshold : ℚ)
    (track : TrackDict) : Option ResolvedTrack :=
  resolve_track yt confidence_threshold 20 track

end YTMusicResolver

/-! ## `AntigravityISRCResolver` (`src/isrc_resolver.py`) -/

/-- One Spotify track record, with the fields `_get_isrc_metadata` reads. -/
structure SpotifyTrack where
  name : String
  artistNames : List String
  albumName : String
  album_release_date : String
  duration_ms : Int
  external_isrc : Option String := none
  explicit : Bool := false
  deriving DecidableEq, Repr

/-- The Spotify client: `search(q=..., type='track', limit=1)` as an oracle
returning `results['tracks']['items']`. -/
structure SpotifyClient where
  search : String → Except PyErr (List SpotifyTrack)

/-- The `ISRCMetadata` dataclass. -/
structure ISRCMetadata where
  title : String
  artist : String
  album : String
  duration_ms : Int
  year : String
  isrc : String
  is_explicit : Bool := false
  deriving DecidableEq, Repr

namespace AntigravityISRCResolver

/-- Embedding of `AntigravityISRCResolver._get_isrc_metadata` (entirely inside
`try/except`: a failing search, no items, or an empty artist list — which
makes `track['artists'][0]` raise `IndexError` — all yield `None`). -/
def get_isrc_metadata (sp : SpotifyClient) (isrc : String) : Option ISRCMetadata :=
  match sp.search ("isrc:" ++ isrc) with
  | .error _ => none
  | .ok [] => none
  | .ok (track :: _) =>
    match track.artistNames with
    | [] => none
    | a :: _ =>
      some
        { title := track.name
          artist := a
          album := track.albumName
          duration_ms := track.duration_ms
          year := String.mk (track.album_release_date.toList.take 4)
          isrc := track.external_isrc.getD isrc }

/-- The suffix list of the local `clean_title` helper inside
`_calculate_title_similarity`, in source order. -/
def version_suffixes : List String :=
  [" - sped up", " (sped up)", " sped up",
   " - instrumental", " (instrumental)", " instrumental",
   " - clean", " (clean)", " clean",
   " - explicit", " (explicit)", " explicit",
   " - radio edit", " (radio edit)", " radio edit",
   " - remix", " (remix)", " remix",
   " - version", " (version)", " version"]

/-- The local `clean_title` helper: strip the first matching version suffix
(then `.strip()`). -/
def cleanVersionSuffix (title : String) : String :=
  match version_suffixes.find? (fun suf => suf.toList.isSuffixOf title.toList) with
  | some suf => pyStrip (String.mk (title.toList.take (title.toList.length - suf.toList.length)))
  | none => pyStrip title

/-- Embedding of `AntigravityISRCResolver._calculate_title_similarity` (the collision-check
title similarity — distinct from `AntigravityResolver`'s). -/
def calculate_title_similarity (expected_title actual_title : String) : ℚ :=
  if expected_title = "" ∨ actual_title = "" then 0
  else
    let el := pyLower expected_title
    let al := pyLower actual_title
    if el = al then 1
    else
      let ec := cleanVersionSuffix el
      let ac := cleanVersionSuffix al
      if ec = ac ∧ ec ≠ al then 9/10
      else if strContains al el || strContains el al then 4/5
      else if strContains ac ec || strContains ec ac then 7/10
      else if wordSet ec ≠ [] ∧ wordSet ac ≠ [] ∧ unionCard ec ac ≠ 0 then
        (interCard ec ac : ℚ) / (unionCard ec ac : ℚ)
      else 0

/-- The scan of `_calculate_artist_similarity` over the credited artists:
empty names are skipped, the first artist matching exactly returns `1.0`, the
first matching by containment returns `0.8`, and the loop falls through to
`0.0` (no Jaccard fallback in this function). -/
def artistLoop (el : String) : List String → ℚ
  | [] => 0
  | artist :: rest =>
    if artist = "" then artistLoop el rest
    else
      let al := pyLower artist
      if el = al then 1
      else if strContains al el || strContains el al then 4/5
      else artistLoop el rest

/-- Embedding of `AntigravityISRCResolver._calculate_artist_similarity` (collision check). -/
def calculate_artist_similarity (expected_artist : String) (actual_artists : List String) : ℚ :=
  if expected_artist = "" ∨ actual_artists = [] then 0
  else artistLoop (pyLower expected_artist) actual_artists

/-- Embedding of `AntigravityISRCResolver._validate_video_id` (entirely inside
`try/except`; every failure path returns `False`). -/
def validate_video_id (yt : YTClient) (video_id : String) : Bool :=
  match yt.get_watch_playlist video_id with
  | .error _ => false
  | .ok none => false
  | .ok (some wp) =>
    if wp.tracksCount = 0 then false
    else if wp.headers ≠ [] ∧ wp.headers.any
        (fun h => strContains (pyLower h) "age" || strContains (pyLower h) "restricted") then
      false
    else
      match yt.search none video_id 1 with
      | .error _ => false
      | .ok [] => false
      | .ok (_ :: _) => true

/-- The authoritative track dictionary (`track_metadata.__dict__`) handed to
the inner `resolve_track` by `resolve_by_isrc`. -/
def authTrackDict (m : ISRCMetadata) : TrackDict :=
  { title := m.title, artist := m.artist, album := m.album,
    duration_ms := m.duration_ms, isrc := some m.isrc, year := m.year, track_number := 0 }

/-- The `fallback_track` dictionary with `'isrc': None`. -/
def fallbackTrackDict (m : ISRCMetadata) : TrackDict :=
  { title := m.title, artist := m.artist, album := m.album,
    duration_ms := m.duration_ms, isrc := none, year := m.year, track_number := 0 }

/-- Embedding of `AntigravityISRCResolver.resolve_by_isrc`.  The inner `YTMusicResolver`
is constructed with `confidence_threshold=0.75`. -/
def resolve_by_isrc (sp : SpotifyClient) (yt : YTClient) (isrc : String) : Option ResolvedTrack :=
  match get_isrc_metadata sp isrc with
  | none => none
  | some m =>
    match YTMusicResolver.resolve_track (some yt) (3/4) 20 (authTrackDict m) with
    | none => none
    | some result =>
      let title_match := calculate_title_similarity m.title result.title
      let artist_match := calculate_artist_similarity m.artist result.artists
      if title_match < 1/2 ∨ artist_match < 7/10 then
        YTMusicResolver.resolve_track (some yt) (3/4) 20 (fallbackTrackDict m)
      else if result.video_id ≠ "" ∧ validate_video_id yt result.video_id then
        some result
      else
        YTMusicResolver.resolve_track (some yt) (3/4) 20 (fallbackTrackDict m)

end AntigravityISRCResolver

/-! ## `SmartResolver` (`src/smart_resolver.py`) -/

namespace SmartResolver

/-- Embedding of `SmartResolver.resolve_track`.  `st` is the ISRC resolver constructed in
`__init__` (`none` when loading the Spotify config failed — the bare `except`
there absorbs every construction error and clears `has_spotify`);
`ytFallback` is the client of the fallback `YTMusicResolver` built by
`resolve_with_ytmusic` with threshold `0.50`. -/
def resolve_track (st : Option (SpotifyClient × YTClient)) (ytFallback : Option YTClient)
    (track : TrackDict) : Option ResolvedTrack :=
  let isrc := track.isrc.getD ""
  let step1 :=
    match st with
    | some (sp, yt) =>
      if isrc ≠ "" then AntigravityISRCResolver.resolve_by_isrc sp yt isrc else none
    | none => none
  match step1 with
  | some r => some r
  | none => YTMusicResolver.resolve_with_ytmusic ytFallback (1/2) track

end SmartResolver

/-! ## Lemmas about the stable sort and the first maximum -/

section StableSortLemmas

variable {α : Type} (key : α → ℚ)

theorem head?_insertDesc (x : α) (s : List α) :
    (insertDesc key x s).head? =
      some (match s.head? with
            | none => x
            | some y => if key x < key y then y else x) := by
  cases s with
  | nil => rfl
  | cons y ys =>
    by_cases h : key x < key y <;> simp [insertDesc, h]

theorem head?_sortDesc (l : List α) :
    (sortDesc key l).head? = firstMax key l := by
  induction l with
  | nil => rfl
  | cons x xs ih =>
    show (insertDesc key x (sortDesc key xs)).head? = _
    rw [head?_insertDesc, ih]
    cases h : firstMax key xs with
    | none => simp [firstMax, h]
    | some y => by_cases hk : key x < key y <;> simp [firstMax, h, hk]

theorem firstMax_eq_none_iff (l : List α) : firstMax key l = none ↔ l = [] := by
  cases l with
  | nil => simp [firstMax]
  | cons x xs =>
    simp only [firstMax]
    cases firstMax key xs with
    | none => simp
    | some y => by_cases hk : key x < key y <;> simp [hk]

theorem firstMax_mem {l : List α} : ∀ {m : α}, firstMax key l = some m → m ∈ l := by
  induction l with
  | nil => intro m h; simp [firstMax] at h
  | cons x xs ih =>
    intro m h
    cases hx : firstMax key xs with
    | none =>
      simp only [firstMax, hx] at h
      simp at h
      simp [h]
    | some y =>
      simp only [firstMax, hx] at h
      by_cases hk : key x < key y
      · rw [if_pos hk] at h
        simp at h
        exact List.mem_cons_of_mem x (ih (by rw [hx, h]))
      · rw [if_neg hk] at h
        simp at h
        simp [h]

theorem firstMax_is_max {l : List α} :
    ∀ {m : α}, firstMax key l = some m → ∀ y ∈ l, key y ≤ key m := by
  induction l with
  | nil => intro m h; simp [firstMax] at h
  | cons x xs ih =>
    intro m h
    cases hx : firstMax key xs with
    | none =>
      simp only [firstMax, hx] at h
      simp at h
      have hxs : xs = [] := (firstMax_eq_none_iff key xs).mp hx
      subst hxs
      simp [h]
    | some y =>
      simp only [firstMax, hx] at h
      by_cases hk : key x < key y
      · rw [if_pos hk] at h
        simp at h
        subst h
        intro z hz
        rcases List.mem_cons.mp hz with rfl | hz
        · exact le_of_lt hk
        · exact ih hx z hz
      · rw [if_neg hk] at h
        simp at h
        subst h
        intro z hz
        rcases List.mem_cons.mp hz with rfl | hz
        · exact le_rfl
        · exact le_trans (ih hx z hz) (not_lt.mp hk)

theorem firstMax_decomp {l : List α} :
    ∀ {m : α}, firstMax key l = some m →
      ∃ pre post, l = pre ++ m :: post ∧ (∀ y ∈ pre, key y < key m) ∧
        (∀ y ∈ post, key y ≤ key m) := by
  induction l with
  | nil => intro m h; simp [firstMax] at h
  | cons x xs ih =>
    intro m h
    cases hx : firstMax key xs with
    | none =>
      simp only [firstMax, hx] at h
      simp at h
      have hxs : xs = [] := (firstMax_eq_none_iff key xs).mp hx
      subst hxs
      subst h
      exact ⟨[], [], rfl, by simp, by simp⟩
    | some y =>
      simp only [firstMax, hx] at h
      by_cases hk : key x < key y
      · rw [if_pos hk] at h
        simp at h
        subst h
        obtain ⟨pre, post, hdecomp, hpre, hpost⟩ := ih hx
        refine ⟨x :: pre, post, by rw [hdecomp]; rfl, ?_, hpost⟩
        intro z hz
        rcases List.mem_cons.mp hz with rfl | hz
        · exact hk
        · exact hpre z hz
      · rw [if_neg hk] at h
        simp at h
        subst h
        refine ⟨[], xs, rfl, by simp, ?_⟩
        intro z hz
        exact le_trans (firstMax_is_max key hx z hz) (not_lt.mp hk)

theorem firstMax_of_decomp (m : α) (pre post : List α)
    (hpre : ∀ y ∈ pre, key y < key m) (hpost : ∀ y ∈ post, key y ≤ key m) :
    firstMax key (pre ++ m :: post) = some m := by
  induction pre with
  | nil =>
    simp only [List.nil_append]
    cases hx : firstMax key post with
    | none => simp [firstMax, hx]
    | some y =>
      have hle : key y ≤ key m := hpost y (firstMax_mem key hx)
      simp [firstMax, hx, not_lt.mpr hle]
  | cons a pre ih =>
    have ha : key a < key m := hpre a (List.mem_cons_self a pre)
    have ihres := ih (fun z hz => hpre z (List.mem_cons_of_mem a hz))
    simp only [List.cons_append]
    simp [firstMax, ihres, ha]

end StableSortLemmas

/-- Splitting `filterMap` around a produced element: if `l.filterMap f`
contains `x`, the originating element can be located in `l`. -/
theorem filterMap_split {α β : Type} (f : α → Option β) :
    ∀ (l : List α) (l1 : List β) (x : β) (l2 : List β),
      l.filterMap f = l1 ++ x :: l2 →
      ∃ p a q, l = p ++ a :: q ∧ f a = some x ∧ p.filterMap f = l1 ∧ q.filterMap f = l2 := by
  intro l
  induction l with
  | nil => intro l1 x l2 h; simp at h
  | cons b l ih =>
    intro l1 x l2 h
    rw [List.filterMap_cons] at h
    cases hb : f b with
    | none =>
      rw [hb] at h
      obtain ⟨p, a, q, hl, hfa, hp, hq⟩ := ih l1 x l2 h
      exact ⟨b :: p, a, q, by rw [hl]; rfl, hfa, by rw [List.filterMap_cons, hb, hp], hq⟩
    | some y =>
      rw [hb] at h
      cases l1 with
      | nil =>
        simp at h
        exact ⟨[], b, l, rfl, by rw [hb, h.1], rfl, h.2⟩
      | cons z l1 =>
        simp at h
        obtain ⟨p, a, q, hl, hfa, hp, hq⟩ := ih l1 x l2 h.2
        exact ⟨b :: p, a, q, by rw [hl]; rfl, hfa,
          by rw [List.filterMap_cons, hb, hp, h.1], hq⟩

/-! ## Characterisation of `AntigravityResolver.resolve` -/

namespace AntigravityResolver

theorem scoreEntry_eq_some {t : TrackMetadata} {c : Candidate} {x : Candidate × ℚ × ℚ} :
    scoreEntry t c = some x ↔
      0 < (calculate_confidence t c).2 ∧
        x = (c, (calculate_confidence t c).1, (calculate_confidence t c).2) := by
  unfold scoreEntry
  by_cases h : 0 < (calculate_confidence t c).2
  · simp [h, eq_comm]
  · simp [h]

theorem scoreEntry_eq_none {t : TrackMetadata} {c : Candidate} :
    scoreEntry t c = none ↔ ¬ 0 < (calculate_confidence t c).2 := by
  unfold scoreEntry
  by_cases h : 0 < (calculate_confidence t c).2 <;> simp [h]

theorem resolve_nil (th : ℚ) (t : TrackMetadata) : resolve th t [] = none := by
  simp [resolve]

theorem resolve_sound {th : ℚ} {t : TrackMetadata} {cs : List Candidate}
    {c : Candidate} {conf : ℚ} (h : resolve th t cs = some (c, conf)) :
    th ≤ conf ∧ 0 < conf ∧ conf = (calculate_confidence t c).2 ∧
      (∃ pre post, cs = pre ++ c :: post ∧
        (∀ d ∈ pre, (calculate_confidence t d).2 < conf)) ∧
      (∀ d ∈ cs, (calculate_confidence t d).2 ≤ conf) := by
  by_cases hcs : cs = []
  · rw [hcs, resolve_nil] at h; exact absurd h (by simp)
  simp only [resolve, if_neg hcs] at h
  cases hs : sortDesc (fun x : Candidate × ℚ × ℚ => x.2.2) (cs.filterMap (scoreEntry t)) with
  | nil => rw [hs] at h; simp at h
  | cons best rest =>
    rw [hs] at h
    simp only [] at h
    by_cases hth : th ≤ best.2.2
    · rw [if_pos hth] at h
      simp at h
      obtain ⟨hc, hconf⟩ := h
      have hhead : firstMax (fun x : Candidate × ℚ × ℚ => x.2.2)
          (cs.filterMap (scoreEntry t)) = some best := by
        rw [← head?_sortDesc, hs]; rfl
      obtain ⟨pre', post', hdecomp', hpre', hpost'⟩ := firstMax_decomp _ hhead
      obtain ⟨p, a, q, hcs', hfa, hp, hq⟩ := filterMap_split _ cs pre' best post' hdecomp'
      obtain ⟨hapos, hax⟩ := scoreEntry_eq_some.mp hfa
      have ha1 : best.1 = a := by rw [hax]
      have ha2 : best.2.2 = (calculate_confidence t a).2 := by rw [hax]
      have hac : a = c := by rw [← ha1, hc]
      subst hac
      have hconf2 : conf = (calculate_confidence t a).2 := by rw [← hconf, ha2]
      have hconfpos : 0 < conf := hconf2 ▸ hapos
      refine ⟨hconf ▸ hth, hconfpos, hconf2, ⟨p, q, hcs', ?_⟩, ?_⟩
      · intro d hd
        by_cases hdpos : 0 < (calculate_confidence t d).2
        · have hmem : (d, (calculate_confidence t d).1, (calculate_confidence t d).2) ∈ pre' := by
            rw [← hp]
            exact List.mem_filterMap.mpr ⟨d, hd, scoreEntry_eq_some.mpr ⟨hdpos, rfl⟩⟩
          have := hpre' _ hmem
          simp only [] at this
          rw [hconf] at this
          exact this
        · exact lt_of_le_of_lt (not_lt.mp hdpos) hconfpos
      · intro d hd
        by_cases hdpos : 0 < (calculate_confidence t d).2
        · have hmem : (d, (calculate_confidence t d).1, (calculate_confidence t d).2) ∈
              cs.filterMap (scoreEntry t) :=
            List.mem_filterMap.mpr ⟨d, hd, scoreEntry_eq_some.mpr ⟨hdpos, rfl⟩⟩
          rw [hdecomp'] at hmem
          have hle : ∀ y ∈ pre' ++ best :: post',
              (fun x : Candidate × ℚ × ℚ => x.2.2) y ≤ best.2.2 := by
            intro y hy
            rcases List.mem_append.mp hy with hy | hy
            · exact le_of_lt (hpre' y hy)
            · rcases List.mem_cons.mp hy with rfl | hy
              · exact le_rfl
              · exact hpost' y hy
          have := hle _ hmem
          simp only [] at this
          rw [hconf] at this
          exact this
        · exact le_trans (not_lt.mp hdpos) (le_of_lt hconfpos)
    · rw [if_neg hth] at h; simp at h

theorem resolve_complete {th : ℚ} {t : TrackMetadata} {cs : List Candidate}
    {c : Candidate} (pre post : List Candidate) (hdecomp : cs = pre ++ c :: post)
    (hpos : 0 < (calculate_confidence t c).2)
    (hth : th ≤ (calculate_confidence t c).2)
    (hpre : ∀ d ∈ pre, (calculate_confidence t d).2 < (calculate_confidence t c).2)
    (hall : ∀ d ∈ cs, (calculate_confidence t d).2 ≤ (calculate_confidence t c).2) :
    resolve th t cs = some (c, (calculate_confidence t c).2) := by
  have hcs : cs ≠ [] := by rw [hdecomp]; exact List.append_ne_nil_of_right_ne_nil _ (by simp)
  simp only [resolve, if_neg hcs]
  have hscored : cs.filterMap (scoreEntry t) =
      pre.filterMap (scoreEntry t) ++
        (c, (calculate_confidence t c).1, (calculate_confidence t c).2) ::
          post.filterMap (scoreEntry t) := by
    rw [hdecomp, List.filterMap_append, List.filterMap_cons,
      scoreEntry_eq_some.mpr ⟨hpos, rfl⟩]
  have hfm : firstMax (fun x : Candidate × ℚ × ℚ => x.2.2) (cs.filterMap (scoreEntry t)) =
      some (c, (calculate_confidence t c).1, (calculate_confidence t c).2) := by
    rw [hscored]
    apply firstMax_of_decomp
    · intro y hy
      obtain ⟨d, hd, hfd⟩ := List.mem_filterMap.mp hy
      obtain ⟨hdpos, hdx⟩ := scoreEntry_eq_some.mp hfd
      subst hdx
      exact hpre d hd
    · intro y hy
      obtain ⟨d, hd, hfd⟩ := List.mem_filterMap.mp hy
      obtain ⟨hdpos, hdx⟩ := scoreEntry_eq_some.mp hfd
      subst hdx
      exact hall d (by rw [hdecomp]; exact List.mem_append_right _ (List.mem_cons_of_mem _ hd))
  cases hs : sortDesc (fun x : Candidate × ℚ × ℚ => x.2.2) (cs.filterMap (scoreEntry t)) with
  | nil =>
    exfalso
    have := head?_sortDesc (fun x : Candidate × ℚ × ℚ => x.2.2) (cs.filterMap (scoreEntry t))
    rw [hs, hfm] at this
    simp at this
  | cons best rest =>
    have hbest : best = (c, (calculate_confidence t c).1, (calculate_confidence t c).2) := by
      have := head?_sortDesc (fun x : Candidate × ℚ × ℚ => x.2.2) (cs.filterMap (scoreEntry t))
      rw [hs, hfm] at this
      simpa using this
    subst hbest
    simp only []
    rw [if_pos hth]

theorem resolve_below_threshold {th : ℚ} {t : TrackMetadata} {cs : List Candidate}
    (h : ∀ d ∈ cs, (calculate_confidence t d).2 < th) : resolve th t cs = none := by
  by_cases hcs : cs = []
  · rw [hcs]; exact resolve_nil th t
  simp only [resolve, if_neg hcs]
  cases hs : sortDesc (fun x : Candidate × ℚ × ℚ => x.2.2) (cs.filterMap (scoreEntry t)) with
  | nil => rfl
  | cons best rest =>
    have hhead : firstMax (fun x : Candidate × ℚ × ℚ => x.2.2)
        (cs.filterMap (scoreEntry t)) = some best := by
      rw [← head?_sortDesc, hs]; rfl
    have hmem := firstMax_mem _ hhead
    obtain ⟨d, hd, hfd⟩ := List.mem_filterMap.mp hmem
    obtain ⟨hdpos, hdx⟩ := scoreEntry_eq_some.mp hfd
    have : best.2.2 < th := by rw [hdx]; exact h d hd
    simp only []
    rw [if_neg (not_le.mpr this)]

end AntigravityResolver

/-! ## Evaluation helpers for the similarity functions -/

namespace AntigravityResolver

/-- Exact-match branch of the title similarity: when both cleaned titles agree
(case-insensitively), the comparison returns 1 before any token scoring. -/
theorem title_sim_exact {t c : String} (ht : t ≠ "") (hc : c ≠ "")
    (h : pyLower (clean_title t) = pyLower (clean_title c)) :
    calculate_title_similarity t c = 1 := by
  simp only [calculate_title_similarity]
  rw [if_neg (by simp [ht, hc]), if_pos h]

/-- Exact-match early return of the artist loop at the head of the list. -/
theorem artist_sim_exact_head {e a : String} (he : e ≠ "") (rest : List String)
    (h : pyLower (clean_artist e) = pyLower (clean_artist a)) :
    calculate_artist_similarity e (a :: rest) = 1 := by
  simp only [calculate_artist_similarity]
  rw [if_neg (by simp [he])]
  simp only [artistSimLoop]
  rw [if_pos h]

end AntigravityResolver

/-! ## C5 -/

/-- Concrete target and candidate used to witness the ranker
characterisation. -/
def tW : TrackMetadata := { title := "a", artist := "b" }

def cW : Candidate :=
  { video_id := "w", title := "a", artists := ["b"], source := "query_search" }

theorem confidence_tW_cW : AntigravityResolver.calculate_confidence tW cW = (80, 4/5) := by
  have hts : AntigravityResolver.calculate_title_similarity "a" "a" = 1 :=
    AntigravityResolver.title_sim_exact (by decide) (by decide) rfl
  have has2 : AntigravityResolver.calculate_artist_similarity "b" ["b"] = 1 :=
    AntigravityResolver.artist_sim_exact_head (by decide) [] rfl
  have hpen : AntigravityResolver.calculate_unwanted_penalty "a" = 0 := by decide
  simp only [AntigravityResolver.calculate_confidence, tW, cW, hts, has2, hpen]
  norm_num [AntigravityResolver.calculate_duration_similarity, get_duration_seconds]
  rw [if_neg (by decide), if_neg (by decide)]
  norm_num

/-- C5: `AntigravityResolver.resolve` scores every candidate, keeps those with
confidence > 0, orders them descending by confidence with ties broken by
original list order (stable sort), returns the top candidate iff its
confidence is at least the threshold, never returns a candidate whose
confidence is below the threshold, and returns `none` on an empty list
without raising.  Stated as: (1) the empty list yields `none`; (2) soundness —
any returned pair consists of a member of the list whose confidence is
positive, at least the threshold, maximal among all candidates, and strictly
above every candidate preceding it in the original order; (3) completeness —
the first candidate attaining the maximal positive confidence is returned with
its confidence whenever that confidence meets the threshold; (4) when every
candidate scores below the threshold, the result is `none`. -/
theorem C5_rank_characterisation (th : ℚ) (t : TrackMetadata) :
    (AntigravityResolver.resolve th t [] = none) ∧
    (∀ cs c conf, AntigravityResolver.resolve th t cs = some (c, conf) →
      th ≤ conf ∧ 0 < conf ∧ conf = (AntigravityResolver.calculate_confidence t c).2 ∧
      (∃ pre post, cs = pre ++ c :: post ∧
        (∀ d ∈ pre, (AntigravityResolver.calculate_confidence t d).2 < conf)) ∧
      (∀ d ∈ cs, (AntigravityResolver.calculate_confidence t d).2 ≤ conf)) ∧
    (∀ cs c (pre post : List Candidate), cs = pre ++ c :: post →
      0 < (AntigravityResolver.calculate_confidence t c).2 →
      th ≤ (AntigravityResolver.calculate_confidence t c).2 →
      (∀ d ∈ pre, (AntigravityResolver.calculate_confidence t d).2 <
        (AntigravityResolver.calculate_confidence t c).2) →
      (∀ d ∈ cs, (AntigravityResolver.calculate_confidence t d).2 ≤
        (AntigravityResolver.calculate_confidence t c).2) →
      AntigravityResolver.resolve th t cs =
        some (c, (AntigravityResolver.calculate_confidence t c).2)) ∧
    (∀ cs, (∀ d ∈ cs, (AntigravityResolver.calculate_confidence t d).2 < th) →
      AntigravityResolver.resolve th t cs = none) :=
  ⟨AntigravityResolver.resolve_nil th t,
   fun _ _ _ h => AntigravityResolver.resolve_sound h,
   fun _ _ pre post hd hp hth hpre hall =>
     AntigravityResolver.resolve_complete pre post hd hp hth hpre hall,
   fun _ h => AntigravityResolver.resolve_below_threshold h⟩

/-- Witness for C5 at a concrete input: the single candidate `cW` (confidence
0.8) is returned by `resolve` with threshold 0.5. -/
theorem C5_witness :
    AntigravityResolver.resolve (1/2) tW [cW] = some (cW, 4/5) := by
  have h := (C5_rank_characterisation (1/2) tW).2.2.1 [cW] cW [] [] rfl
    (by rw [confidence_tW_cW]; norm_num)
    (by rw [confidence_tW_cW]; norm_num)
    (by simp)
    (by intro d hd
        simp at hd
        subst hd
        exact le_rfl)
  rw [confidence_tW_cW] at h
  exact h

/-! ## C10 -/

/-- C10: for every pair of non-empty titles whose cleaned forms (denylist
qualifier removal, punctuation stripping, whitespace collapse) agree
case-insensitively — including when both clean to the empty string — the
resolver's title similarity returns exactly 1.0, because the exact-match
comparison is performed on the cleaned strings before any token-based
scoring. -/
theorem C10_cleaned_equal_titles_score_one (t c : String) (ht : t ≠ "") (hc : c ≠ "")
    (h : pyLower (AntigravityResolver.clean_title t) =
      pyLower (AntigravityResolver.clean_title c)) :
    AntigravityResolver.calculate_title_similarity t c = 1 :=
  AntigravityResolver.title_sim_exact ht hc h

/-- Witness for C10 at the degenerate pair from the claim: `"(live)"` and
`"(remix)"` both clean to the empty string and score 1.0. -/
theorem C10_witness :
    AntigravityResolver.clean_title "(live)" = "" ∧
    AntigravityResolver.clean_title "(remix)" = "" ∧
    AntigravityResolver.calculate_title_similarity "(live)" "(remix)" = 1 :=
  ⟨by decide, by decide,
   C10_cleaned_equal_titles_score_one "(live)" "(remix)" (by decide) (by decide) (by decide)⟩

/-! ## C4 -/

/-- A concrete search-result record with both a `videoId` and a `title`. -/
def c4Result : SearchResult :=
  { resultType := "song", videoId := "v", title := "t", artists_raw := ["a"] }

/-- Counterexample to C4 as stated: on a record with a `videoId` and a
`title`, `_convert_to_candidate(result, "isrc_search")` does not return
`None` — the `NameError` raised on the undefined `verbose` is re-raised by the
`except` handler (which itself evaluates `verbose`), so the call raises
instead of returning. -/
theorem C4_counterexample :
    YTMusicResolver.convert_to_candidate c4Result "isrc_search" = .error .nameError ∧
    YTMusicResolver.convert_to_candidate c4Result "isrc_search" ≠ .ok none := by
  have h : YTMusicResolver.convert_to_candidate c4Result "isrc_search" = .error .nameError := rfl
  exact ⟨h, by rw [h]; exact fun hh => Except.noConfusion hh⟩

/-- Any conversion with source `"isrc_search"` either drops the record
(missing `videoId` or `title`) or raises `NameError`; it never yields a
candidate. -/
theorem convert_isrc_cases (r : SearchResult) :
    YTMusicResolver.convert_to_candidate r "isrc_search" = .ok none ∨
    YTMusicResolver.convert_to_candidate r "isrc_search" = .error .nameError := by
  unfold YTMusicResolver.convert_to_candidate
  by_cases h1 : r.videoId = ""
  · left; simp [h1]
  · by_cases h2 : r.title = ""
    · left; simp [h1, h2]
    · right; simp [h1, h2]

theorem searchLoop_isrc_eq_acc (rs : List SearchResult) (acc : List Candidate) :
    YTMusicResolver.searchLoop "isrc_search" rs acc = acc := by
  induction rs generalizing acc with
  | nil => rfl
  | cons r rest ih =>
    simp only [YTMusicResolver.searchLoop]
    by_cases hr : r.resultType ≠ "song"
    · rw [if_pos hr]; exact ih acc
    · rw [if_neg hr]
      rcases convert_isrc_cases r with h | h
      · simp only [h]
        exact ih acc
      · simp only [h]

/-- C4 amended: for every record with a `videoId` and a `title`, the
`"isrc_search"` conversion raises `NameError` (the bare `except` handler also
references the undefined `verbose`, so the error propagates instead of
becoming a `None` return); `_search_by_isrc` catches it, and consequently
always returns the empty candidate list, so the identifier-biased search
contributes zero candidates to resolution. -/
theorem C4_amended :
    (∀ r : SearchResult, r.videoId ≠ "" → r.title ≠ "" →
      YTMusicResolver.convert_to_candidate r "isrc_search" = .error .nameError) ∧
    (∀ (yt : YTClient) (isrc : String), YTMusicResolver.search_by_isrc yt isrc = []) := by
  constructor
  · intro r h1 h2
    unfold YTMusicResolver.convert_to_candidate
    simp [h1, h2]
  · intro yt isrc
    unfold YTMusicResolver.search_by_isrc
    cases yt.search (some "songs") isrc 10 with
    | error e => rfl
    | ok results => exact searchLoop_isrc_eq_acc results []

/-- A client whose searches return the record `c4Result` (used to witness the
amended C4). -/
def c4Client : YTClient :=
  { search := fun _ _ _ => .ok [c4Result]
    get_watch_playlist := fun _ => .error (.external "unused") }

/-- Witness for the amended C4 at a concrete record and client. -/
theorem C4_amended_witness :
    YTMusicResolver.convert_to_candidate c4Result "isrc_search" = .error .nameError ∧
    YTMusicResolver.search_by_isrc c4Client "USISRC000001" = [] :=
  ⟨C4_amended.1 c4Result (by decide) (by decide), C4_amended.2 c4Client "USISRC000001"⟩

/-! ## C3 -/

/-- A search-result record used to exhibit duplicate candidates. -/
def dupResult : SearchResult :=
  { resultType := "song", videoId := "v", title := "t", artists_raw := ["a"],
    duration_seconds := 200 }

/-- A client whose free-text search returns the same record twice (search
indexes may repeat a video). -/
def dupClient : YTClient :=
  { search := fun _ _ _ => .ok [dupResult, dupResult]
    get_watch_playlist := fun _ => .error (.external "unused") }

/-- A target with no identifier. -/
def tm3 : TrackMetadata := { title := "t", artist := "a" }

/-- Counterexample to C3: the candidate list handed to the scorer by
`resolve_track` (built by its gathering phase) can contain two entries with
the same platform identifier — no deduplication is performed anywhere. -/
theorem C3_counterexample :
    ((YTMusicResolver.gatherCandidates dupClient tm3 20).map
      (fun c => c.video_id)) = ["v", "v"] := by
  decide

/-- C3 amended: the candidate list handed to the scorer is exactly the
identifier-search candidates followed verbatim by the free-text search
candidates when fewer than three identifier candidates were found, and
exactly the identifier-search candidates otherwise; no collapsing of
duplicate identifiers happens anywhere, so the list may contain several
entries with the same identifier, and identifier-search entries always
precede free-text entries. -/
theorem C3_amended (yt : YTClient) (m : TrackMetadata) (maxc : Nat) :
    YTMusicResolver.gatherCandidates yt m maxc =
      (if m.isrc ≠ "" then YTMusicResolver.search_by_isrc yt m.isrc else []) ++
        (if (if m.isrc ≠ "" then YTMusicResolver.search_by_isrc yt m.isrc else []).length < 3
         then YTMusicResolver.search_by_query yt m maxc else []) := by
  unfold YTMusicResolver.gatherCandidates
  by_cases h : (if m.isrc ≠ "" then YTMusicResolver.search_by_isrc yt m.isrc else []).length < 3
  · rw [if_pos h, if_pos h]
  · rw [if_neg h, if_neg h, List.append_nil]

/-! ## C8 -/

/-- C8: every error raised by an external lookup/search call is caught at the
call site and treated as zero candidates (or as a failed lookup/probe), and
the operational pipeline always terminates in ACCEPT (`some`) or UNRESOLVED
(`none`): (1) a failing identifier-biased search yields no candidates; (2) a
failing free-text search yields no candidates; (3) a failing Spotify
identifier lookup yields `none` metadata; (4)–(5) a failing watch-playlist
probe or probe-search marks the video inaccessible; (6) the smart pipeline
always returns `some` or `none`; (7) when loading the Spotify configuration
failed at construction time (absorbed by the bare `except` in
`SmartResolver.__init__`), the pipeline still proceeds to the metadata-based
fallback rather than raising. -/
theorem C8_errors_absorbed :
    (∀ (yt : YTClient) (isrc : String) (e : PyErr),
      yt.search (some "songs") isrc 10 = .error e →
      YTMusicResolver.search_by_isrc yt isrc = []) ∧
    (∀ (yt : YTClient) (m : TrackMetadata) (maxr : Nat) (e : PyErr),
      yt.search (some "songs") (YTMusicResolver.buildQuery m) maxr = .error e →
      YTMusicResolver.search_by_query yt m maxr = []) ∧
    (∀ (sp : SpotifyClient) (isrc : String) (e : PyErr),
      sp.search ("isrc:" ++ isrc) = .error e →
      AntigravityISRCResolver.get_isrc_metadata sp isrc = none) ∧
    (∀ (yt : YTClient) (vid : String) (e : PyErr),
      yt.get_watch_playlist vid = .error e →
      AntigravityISRCResolver.validate_video_id yt vid = false) ∧
    (∀ (yt : YTClient) (vid : String) (e : PyErr),
      yt.search none vid 1 = .error e →
      AntigravityISRCResolver.validate_video_id yt vid = false) ∧
    (∀ (st : Option (SpotifyClient × YTClient)) (fb : Option YTClient) (track : TrackDict),
      SmartResolver.resolve_track st fb track = none ∨
      ∃ r, SmartResolver.resolve_track st fb track = some r) ∧
    (∀ (fb : Option YTClient) (track : TrackDict),
      SmartResolver.resolve_track none fb track =
        YTMusicResolver.resolve_with_ytmusic fb (1/2) track) := by
  refine ⟨?_, ?_, ?_, ?_, ?_, ?_, ?_⟩
  · intro yt isrc e h
    unfold YTMusicResolver.search_by_isrc
    rw [h]
  · intro yt m maxr e h
    unfold YTMusicResolver.search_by_query
    rw [h]
  · intro sp isrc e h
    unfold AntigravityISRCResolver.get_isrc_metadata
    rw [h]
  · intro yt vid e h
    unfold AntigravityISRCResolver.validate_video_id
    rw [h]
  · intro yt vid e h
    unfold AntigravityISRCResolver.validate_video_id
    cases hw : yt.get_watch_playlist vid with
    | error e2 => rfl
    | ok o =>
      cases o with
      | none => rfl
      | some wp =>
        dsimp only
        by_cases h0 : wp.tracksCount = 0
        · simp [h0]
        · rw [if_neg h0]
          by_cases hh : wp.headers ≠ [] ∧ wp.headers.any
              (fun s => strContains (pyLower s) "age" || strContains (pyLower s) "restricted")
          · rw [if_pos hh]
          · rw [if_neg hh, h]
  · intro st fb track
    cases h : SmartResolver.resolve_track st fb track with
    | none => left; rfl
    | some r => right; exact ⟨r, rfl⟩
  · intro fb track
    rfl

/-- A client/lookup pair whose every external call raises. -/
def errClient : YTClient :=
  { search := fun _ _ _ => .error (.external "boom")
    get_watch_playlist := fun _ => .error (.external "boom") }

def errSp : SpotifyClient := ⟨fun _ => .error (.external "boom")⟩

/-- Witness for C8 with always-failing clients. -/
theorem C8_witness :
    YTMusicResolver.search_by_isrc errClient "X" = [] ∧
    YTMusicResolver.search_by_query errClient tm3 20 = [] ∧
    AntigravityISRCResolver.get_isrc_metadata errSp "X" = none ∧
    AntigravityISRCResolver.validate_video_id errClient "v" = false ∧
    SmartResolver.resolve_track none none { title := "t", artist := "a" } =
      YTMusicResolver.resolve_with_ytmusic none (1/2) { title := "t", artist := "a" } :=
  ⟨C8_errors_absorbed.1 errClient "X" (.external "boom") rfl,
   C8_errors_absorbed.2.1 errClient tm3 20 (.external "boom") rfl,
   C8_errors_absorbed.2.2.1 errSp "X" (.external "boom") rfl,
   C8_errors_absorbed.2.2.2.1 errClient "v" (.external "boom") rfl,
   C8_errors_absorbed.2.2.2.2.2.2 none { title := "t", artist := "a" }⟩

/-! ## C9 -/

namespace AntigravityISRCResolver

theorem artistLoop_range (el : String) (l : List String) :
    artistLoop el l = 0 ∨ artistLoop el l = 4/5 ∨ artistLoop el l = 1 := by
  induction l with
  | nil => left; rfl
  | cons a rest ih =>
    simp only [artistLoop]
    by_cases h1 : a = ""
    · rw [if_pos h1]; exact ih
    · rw [if_neg h1]
      by_cases h2 : el = pyLower a
      · rw [if_pos h2]; right; right; rfl
      · rw [if_neg h2]
        by_cases h3 : (strContains (pyLower a) el || strContains el (pyLower a)) = true
        · rw [if_pos h3]; right; left; rfl
        · rw [if_neg h3]; exact ih

theorem artistLoop_no_match (el : String) (l : List String)
    (h : ∀ b ∈ l, b ≠ "" → el ≠ pyLower b ∧
      strContains (pyLower b) el = false ∧ strContains el (pyLower b) = false) :
    artistLoop el l = 0 := by
  induction l with
  | nil => rfl
  | cons a rest ih =>
    simp only [artistLoop]
    by_cases h1 : a = ""
    · rw [if_pos h1]; exact ih fun b hb => h b (List.mem_cons_of_mem a hb)
    · obtain ⟨hx, hc1, hc2⟩ := h a (List.mem_cons_self a rest) h1
      rw [if_neg h1, if_neg hx, if_neg (by simp [hc1, hc2])]
      exact ih fun b hb => h b (List.mem_cons_of_mem a hb)

theorem artistLoop_first_match (el : String) (pre : List String) (a : String) (post : List String)
    (hpre : ∀ b ∈ pre, b ≠ "" → el ≠ pyLower b ∧
      strContains (pyLower b) el = false ∧ strContains el (pyLower b) = false)
    (ha : a ≠ "") :
    (el = pyLower a → artistLoop el (pre ++ a :: post) = 1) ∧
    (el ≠ pyLower a → (strContains (pyLower a) el || strContains el (pyLower a)) = true →
      artistLoop el (pre ++ a :: post) = 4/5) := by
  induction pre with
  | nil =>
    constructor
    · intro hx
      simp only [List.nil_append, artistLoop]
      rw [if_neg ha, if_pos hx]
    · intro hx hcont
      simp only [List.nil_append, artistLoop]
      rw [if_neg ha, if_neg hx, if_pos hcont]
  | cons b pre ih =>
    have ihres := ih fun z hz => hpre z (List.mem_cons_of_mem b hz)
    constructor <;> intro hx
    · simp only [List.cons_append, artistLoop]
      by_cases h1 : b = ""
      · rw [if_pos h1]; exact ihres.1 hx
      · obtain ⟨hbx, hb1, hb2⟩ := hpre b (List.mem_cons_self b pre) h1
        rw [if_neg h1, if_neg hbx, if_neg (by simp [hb1, hb2])]
        exact ihres.1 hx
    · intro hcont
      simp only [List.cons_append, artistLoop]
      by_cases h1 : b = ""
      · rw [if_pos h1]; exact ihres.2 hx hcont
      · obtain ⟨hbx, hb1, hb2⟩ := hpre b (List.mem_cons_self b pre) h1
        rw [if_neg h1, if_neg hbx, if_neg (by simp [hb1, hb2])]
        exact ihres.2 hx hcont

end AntigravityISRCResolver

/-- Counterexample to C9 as stated: with authoritative artist `"a"` and
credited artists `["xa", "a"]` there is an exact case-insensitive match
(`"a"`), yet the collision artist similarity returns 0.8, not 1.0 — the scan
returns at the first artist matching by containment, masking the later exact
match. -/
theorem C9_counterexample :
    AntigravityISRCResolver.calculate_artist_similarity "a" ["xa", "a"] = 4/5 ∧
    AntigravityISRCResolver.calculate_artist_similarity "a" ["xa", "a"] ≠ 1 ∧
    "a" ∈ ["xa", "a"] ∧ pyLower "a" = pyLower "a" := by
  have h : AntigravityISRCResolver.calculate_artist_similarity "a" ["xa", "a"] = 4/5 := rfl
  exact ⟨h, by rw [h]; norm_num, by decide, rfl⟩

/-- C9 amended: the collision-check artist similarity takes values only in
{0, 0.8, 1.0} (no Jaccard fallback); the scan is sequential with early
return — the FIRST non-empty artist that matches exactly (1.0) or by
containment (0.8) decides the result, so a later exact match can be masked —
and when no non-empty credited artist matches exactly or by containment the
result is 0, which is below the 0.7 acceptance bound, so such a candidate is
rejected as a collision. -/
theorem C9_amended :
    (∀ (e : String) (l : List String),
      AntigravityISRCResolver.calculate_artist_similarity e l = 0 ∨
      AntigravityISRCResolver.calculate_artist_similarity e l = 4/5 ∨
      AntigravityISRCResolver.calculate_artist_similarity e l = 1) ∧
    (∀ (e : String) (pre : List String) (a : String) (post : List String),
      e ≠ "" → a ≠ "" →
      (∀ b ∈ pre, b ≠ "" → pyLower e ≠ pyLower b ∧
        strContains (pyLower b) (pyLower e) = false ∧
        strContains (pyLower e) (pyLower b) = false) →
      ((pyLower e = pyLower a →
        AntigravityISRCResolver.calculate_artist_similarity e (pre ++ a :: post) = 1) ∧
       (pyLower e ≠ pyLower a →
        (strContains (pyLower a) (pyLower e) || strContains (pyLower e) (pyLower a)) = true →
        AntigravityISRCResolver.calculate_artist_similarity e (pre ++ a :: post) = 4/5))) ∧
    (∀ (e : String) (l : List String),
      (∀ b ∈ l, b ≠ "" → pyLower e ≠ pyLower b ∧
        strContains (pyLower b) (pyLower e) = false ∧
        strContains (pyLower e) (pyLower b) = false) →
      AntigravityISRCResolver.calculate_artist_similarity e l = 0 ∧
      AntigravityISRCResolver.calculate_artist_similarity e l < 7/10) := by
  refine ⟨?_, ?_, ?_⟩
  · intro e l
    unfold AntigravityISRCResolver.calculate_artist_similarity
    by_cases h : e = "" ∨ l = []
    · rw [if_pos h]; left; rfl
    · rw [if_neg h]; exact AntigravityISRCResolver.artistLoop_range (pyLower e) l
  · intro e pre a post he ha hpre
    have hne : ¬(e = "" ∨ pre ++ a :: post = []) := by
      simp [he]
    unfold AntigravityISRCResolver.calculate_artist_similarity
    rw [if_neg hne]
    exact AntigravityISRCResolver.artistLoop_first_match (pyLower e) pre a post hpre ha
  · intro e l h
    have hz : AntigravityISRCResolver.calculate_artist_similarity e l = 0 := by
      unfold AntigravityISRCResolver.calculate_artist_similarity
      by_cases hc : e = "" ∨ l = []
      · rw [if_pos hc]
      · rw [if_neg hc]; exact AntigravityISRCResolver.artistLoop_no_match (pyLower e) l h
    exact ⟨hz, by rw [hz]; norm_num⟩

/-- Witness for the amended C9: `"b"` does not match, `"a"` matches exactly,
so the similarity is 1; and a no-match list is rejected. -/
theorem C9_amended_witness :
    AntigravityISRCResolver.calculate_artist_similarity "a" ["b", "a"] = 1 ∧
    AntigravityISRCResolver.calculate_artist_similarity "a" ["zz"] < 7/10 :=
  ⟨(C9_amended.2.1 "a" ["b"] "a" [] (by decide) (by decide)
      (by intro b hb hne
          simp at hb
          subst hb
          exact ⟨by decide, by decide, by decide⟩)).1 rfl,
   (C9_amended.2.2 "a" ["zz"]
      (by intro b hb hne
          simp at hb
          subst hb
          exact ⟨by decide, by decide, by decide⟩)).2⟩

/-! ## C6 -/

namespace AntigravityResolver

theorem artistSimLoop_no_match (tcl : String) (l : List String)
    (h : ∀ b ∈ l, tcl ≠ pyLower (clean_artist b) ∧
      strContains (pyLower (clean_artist b)) tcl = false ∧
      strContains tcl (pyLower (clean_artist b)) = false) :
    ∀ best : ℚ, artistSimLoop tcl best l = l.foldl (jaccardStep tcl) best := by
  induction l with
  | nil => intro best; rfl
  | cons a rest ih =>
    intro best
    obtain ⟨hx, hc1, hc2⟩ := h a (List.mem_cons_self a rest)
    simp only [artistSimLoop, List.foldl_cons]
    rw [if_neg hx, if_neg (by simp [hc1, hc2])]
    exact ih (fun b hb => h b (List.mem_cons_of_mem a hb)) _

theorem artistSimLoop_first_match (tcl : String) (pre : List String) (a : String)
    (post : List String)
    (hpre : ∀ b ∈ pre, tcl ≠ pyLower (clean_artist b) ∧
      strContains (pyLower (clean_artist b)) tcl = false ∧
      strContains tcl (pyLower (clean_artist b)) = false) :
    ∀ best : ℚ,
    (tcl = pyLower (clean_artist a) → artistSimLoop tcl best (pre ++ a :: post) = 1) ∧
    (tcl ≠ pyLower (clean_artist a) →
      (strContains (pyLower (clean_artist a)) tcl || strContains tcl (pyLower (clean_artist a)))
        = true →
      artistSimLoop tcl best (pre ++ a :: post) = 4/5) := by
  induction pre with
  | nil =>
    intro best
    constructor
    · intro hx
      simp only [List.nil_append, artistSimLoop]
      rw [if_pos hx]
    · intro hx hcont
      simp only [List.nil_append, artistSimLoop]
      rw [if_neg hx, if_pos hcont]
  | cons b pre ih =>
    intro best
    have ihres := ih fun z hz => hpre z (List.mem_cons_of_mem b hz)
    obtain ⟨hbx, hb1, hb2⟩ := hpre b (List.mem_cons_self b pre)
    constructor <;> intro hx
    · simp only [List.cons_append, artistSimLoop]
      rw [if_neg hbx, if_neg (by simp [hb1, hb2])]
      exact (ihres _).1 hx
    · intro hcont
      simp only [List.cons_append, artistSimLoop]
      rw [if_neg hbx, if_neg (by simp [hb1, hb2])]
      exact (ihres _).2 hx hcont

end AntigravityResolver

/-- Counterexample to C6 as stated: target artist `"Ye"` with credited
artists `["Kanye", "Ye"]` contains an exact match (`"Ye"`, similarity 1.0),
yet the function returns 0.8: the sequential scan returns at the first
substring match (`"ye"` ⊂ `"kanye"`), masking the later exact match. -/
theorem C6_counterexample :
    AntigravityResolver.calculate_artist_similarity "Ye" ["Kanye", "Ye"] = 4/5 ∧
    AntigravityResolver.calculate_artist_similarity "Ye" ["Kanye", "Ye"] ≠ 1 ∧
    "Ye" ∈ ["Kanye", "Ye"] ∧
    pyLower (AntigravityResolver.clean_artist "Ye") =
      pyLower (AntigravityResolver.clean_artist "Ye") := by
  have h : AntigravityResolver.calculate_artist_similarity "Ye" ["Kanye", "Ye"] = 4/5 := rfl
  exact ⟨h, by rw [h]; norm_num, by decide, rfl⟩

/-- C6 amended: the scan over credited artists is sequential with early
return: the FIRST artist whose cleaned name matches the cleaned target exactly
returns 1.0 and the first matching by substring containment returns 0.8 —
whichever comes first wins, so a later exact match (1.0) IS masked by an
earlier substring match (0.8); only when no artist matches exactly or by
containment is the result the running maximum of the per-artist token-set
Jaccard similarities over the whole list (the fold of `jaccardStep`,
starting from 0). -/
theorem C6_amended :
    (∀ (ta : String) (pre : List String) (a : String) (post : List String),
      ta ≠ "" →
      (∀ b ∈ pre,
        pyLower (AntigravityResolver.clean_artist ta) ≠
          pyLower (AntigravityResolver.clean_artist b) ∧
        strContains (pyLower (AntigravityResolver.clean_artist b))
          (pyLower (AntigravityResolver.clean_artist ta)) = false ∧
        strContains (pyLower (AntigravityResolver.clean_artist ta))
          (pyLower (AntigravityResolver.clean_artist b)) = false) →
      ((pyLower (AntigravityResolver.clean_artist ta) =
          pyLower (AntigravityResolver.clean_artist a) →
        AntigravityResolver.calculate_artist_similarity ta (pre ++ a :: post) = 1) ∧
       (pyLower (AntigravityResolver.clean_artist ta) ≠
          pyLower (AntigravityResolver.clean_artist a) →
        (strContains (pyLower (AntigravityResolver.clean_artist a))
          (pyLower (AntigravityResolver.clean_artist ta)) ||
         strContains (pyLower (AntigravityResolver.clean_artist ta))
          (pyLower (AntigravityResolver.clean_artist a))) = true →
        AntigravityResolver.calculate_artist_similarity ta (pre ++ a :: post) = 4/5))) ∧
    (∀ (ta : String) (l : List String), ta ≠ "" → l ≠ [] →
      (∀ b ∈ l,
        pyLower (AntigravityResolver.clean_artist ta) ≠
          pyLower (AntigravityResolver.clean_artist b) ∧
        strContains (pyLower (AntigravityResolver.clean_artist b))
          (pyLower (AntigravityResolver.clean_artist ta)) = false ∧
        strContains (pyLower (AntigravityResolver.clean_artist ta))
          (pyLower (AntigravityResolver.clean_artist b)) = false) →
      AntigravityResolver.calculate_artist_similarity ta l =
        l.foldl (AntigravityResolver.jaccardStep
          (pyLower (AntigravityResolver.clean_artist ta))) 0) := by
  constructor
  · intro ta pre a post hta hpre
    have hne : ¬(ta = "" ∨ pre ++ a :: post = []) := by simp [hta]
    unfold AntigravityResolver.calculate_artist_similarity
    rw [if_neg hne]
    exact AntigravityResolver.artistSimLoop_first_match _ pre a post hpre 0
  · intro ta l hta hl h
    have hne : ¬(ta = "" ∨ l = []) := by simp [hta, hl]
    unfold AntigravityResolver.calculate_artist_similarity
    rw [if_neg hne]
    exact AntigravityResolver.artistSimLoop_no_match _ l h 0

/-- Witness for the amended C6: `"Bob"` does not match target `"Ye"`, the
later `"Ye"` matches exactly, so the similarity is 1. -/
theorem C6_amended_witness :
    AntigravityResolver.calculate_artist_similarity "Ye" ["Bob", "Ye"] = 1 :=
  (C6_amended.1 "Ye" ["Bob"] "Ye" [] (by decide)
    (by intro b hb
        simp at hb
        subst hb
        exact ⟨by decide, by decide, by decide⟩)).1 rfl

/-! ## C7 -/

theorem interCard_le_unionCard (a b : String) : interCard a b ≤ unionCard a b := by
  unfold interCard unionCard
  have hsub : (wordSet a).filter (fun w => (wordSet b).contains w) ⊆
      ((wordSet a) ++ (wordSet b)).dedup := by
    intro x hx
    rw [List.mem_dedup]
    exact List.mem_append_left _ (List.mem_of_mem_filter hx)
  have hnodup : ((wordSet a).filter (fun w => (wordSet b).contains w)).Nodup :=
    (List.nodup_dedup _).filter _
  exact (hnodup.subperm hsub).length_le

namespace AntigravityResolver

theorem jaccardStep_le_one (tcl : String) (best : ℚ) (a : String) (h : best ≤ 1) :
    jaccardStep tcl best a ≤ 1 := by
  simp only [jaccardStep]
  split_ifs with hc
  · refine max_le h ?_
    have hu : (0 : ℚ) < (unionCard tcl (pyLower (clean_artist a)) : ℚ) := by
      exact_mod_cast Nat.pos_of_ne_zero hc.2.2
    rw [div_le_one hu]
    exact_mod_cast interCard_le_unionCard _ _
  · exact h

theorem artistSimLoop_le_one (tcl : String) (l : List String) :
    ∀ best : ℚ, best ≤ 1 → artistSimLoop tcl best l ≤ 1 := by
  induction l with
  | nil => intro best h; exact h
  | cons a rest ih =>
    intro best h
    simp only [artistSimLoop]
    split_ifs with h1 h2
    · exact le_rfl
    · norm_num
    · exact ih _ (jaccardStep_le_one tcl best a h)

theorem artist_similarity_le_one (ta : String) (l : List String) :
    calculate_artist_similarity ta l ≤ 1 := by
  unfold calculate_artist_similarity
  split_ifs with h
  · norm_num
  · exact artistSimLoop_le_one _ l 0 (by norm_num)

/-- Monotone assembly of the confidence formula in the artist-similarity
slot (the exact-match bonus condition also mentions it). -/
theorem confidence_shape_mono_artist (i ts asA asB ds alb pen fb ip : ℚ) (h : asA ≤ asB) :
    max 0 ((i + ts * 35 + asA * 25 + ds * 10 + alb - pen +
        (if 9/10 ≤ ts ∧ 9/10 ≤ asA then (20 : ℚ) else 0) + fb - ip) / 100) ≤
    max 0 ((i + ts * 35 + asB * 25 + ds * 10 + alb - pen +
        (if 9/10 ≤ ts ∧ 9/10 ≤ asB then (20 : ℚ) else 0) + fb - ip) / 100) := by
  have hb : (if 9/10 ≤ ts ∧ 9/10 ≤ asA then (20 : ℚ) else 0) ≤
      (if 9/10 ≤ ts ∧ 9/10 ≤ asB then (20 : ℚ) else 0) := by
    split_ifs with h1 h2
    · exact le_rfl
    · exact absurd ⟨h1.1, le_trans h1.2 h⟩ h2
    · norm_num
    · exact le_rfl
  have hnum : i + ts * 35 + asA * 25 + ds * 10 + alb - pen +
      (if 9/10 ≤ ts ∧ 9/10 ≤ asA then (20 : ℚ) else 0) + fb - ip ≤
      i + ts * 35 + asB * 25 + ds * 10 + alb - pen +
      (if 9/10 ≤ ts ∧ 9/10 ≤ asB then (20 : ℚ) else 0) + fb - ip := by
    have h25 : asA * 25 ≤ asB * 25 := by nlinarith
    linarith
  exact max_le_max le_rfl (by gcongr)

/-- Monotone assembly of the confidence formula in the ISRC-points slot. -/
theorem confidence_shape_mono_isrc (iA iB ts aS ds alb pen fb ip : ℚ) (h : iA ≤ iB) :
    max 0 ((iA + ts * 35 + aS * 25 + ds * 10 + alb - pen +
        (if 9/10 ≤ ts ∧ 9/10 ≤ aS then (20 : ℚ) else 0) + fb - ip) / 100) ≤
    max 0 ((iB + ts * 35 + aS * 25 + ds * 10 + alb - pen +
        (if 9/10 ≤ ts ∧ 9/10 ≤ aS then (20 : ℚ) else 0) + fb - ip) / 100) := by
  exact max_le_max le_rfl (by gcongr)

end AntigravityResolver

namespace AntigravityResolver

/-- Evaluation of the title similarity in its token-overlap branch. -/
theorem title_sim_jaccard {t c : String} (ht : t ≠ "") (hc : c ≠ "")
    (hne : pyLower (clean_title t) ≠ pyLower (clean_title c))
    (hw1 : wordSet (pyLower (clean_title t)) ≠ [])
    (hw2 : wordSet (pyLower (clean_title c)) ≠ [])
    (hu : unionCard (pyLower (clean_title t)) (pyLower (clean_title c)) ≠ 0) :
    calculate_title_similarity t c =
      min 1 ((interCard (pyLower (clean_title t)) (pyLower (clean_title c)) : ℚ) /
        (unionCard (pyLower (clean_title t)) (pyLower (clean_title c)) : ℚ) +
        (if (strContains (pyLower (clean_title c)) (pyLower (clean_title t)) ||
             strContains (pyLower (clean_title t)) (pyLower (clean_title c))) = true
         then 1/5 else 0)) := by
  simp only [calculate_title_similarity]
  rw [if_neg (by simp [ht, hc]), if_neg hne, if_neg (by simp [hw1, hw2]), if_neg hu]
  by_cases hcont : (strContains (pyLower (clean_title c)) (pyLower (clean_title t)) ||
      strContains (pyLower (clean_title t)) (pyLower (clean_title c))) = true
  · rw [if_pos hcont, if_pos hcont]
  · rw [if_neg hcont, if_neg hcont, add_zero]

end AntigravityResolver

/-- C7 amended: confidence is monotone non-decreasing when a non-matching
ISRC is replaced by the target's ISRC (holding all other candidate fields
fixed), and when the credited artists are replaced by exactly the target's
primary artist; but it is NOT monotone in exact-title matches nor
anti-monotone in added disqualifying indicators (see the counterexample). -/
theorem C7_amended (t : TrackMetadata) (c : Candidate) :
    (AntigravityResolver.calculate_confidence t c).2 ≤
      (AntigravityResolver.calculate_confidence t { c with isrc := t.isrc }).2 ∧
    (AntigravityResolver.calculate_confidence t c).2 ≤
      (AntigravityResolver.calculate_confidence t { c with artists := [t.artist] }).2 := by
  constructor
  · have h : (if t.isrc ≠ "" ∧ c.isrc ≠ "" ∧ pyLower t.isrc = pyLower c.isrc
        then (40 : ℚ) else 0) ≤
        (if t.isrc ≠ "" ∧ t.isrc ≠ "" ∧ True then (40 : ℚ) else 0) := by
      split_ifs with h1 h2
      · exact le_rfl
      · exact absurd ⟨h1.1, h1.1, trivial⟩ h2
      · norm_num
      · exact le_rfl
    simp only [AntigravityResolver.calculate_confidence]
    exact AntigravityResolver.confidence_shape_mono_isrc _ _ _ _ _ _ _ _ _ h
  · have h : AntigravityResolver.calculate_artist_similarity t.artist c.artists ≤
        AntigravityResolver.calculate_artist_similarity t.artist [t.artist] := by
      by_cases ha : t.artist = ""
      · have h1 : AntigravityResolver.calculate_artist_similarity t.artist c.artists = 0 := by
          unfold AntigravityResolver.calculate_artist_similarity
          rw [if_pos (Or.inl ha)]
        have h2 : AntigravityResolver.calculate_artist_similarity t.artist [t.artist] = 0 := by
          unfold AntigravityResolver.calculate_artist_similarity
          rw [if_pos (Or.inl ha)]
        rw [h1, h2]
      · rw [AntigravityResolver.artist_sim_exact_head ha [] rfl]
        exact AntigravityResolver.artist_similarity_le_one t.artist c.artists
    simp only [AntigravityResolver.calculate_confidence]
    exact AntigravityResolver.confidence_shape_mono_artist _ _ _ _ _ _ _ _ _ h

def t7a : TrackMetadata := { title := "song instrumental", artist := "art", duration_ms := 200000 }

def c7plain : Candidate := { video_id := "v", title := "song", artists := ["art"], duration := 200 }

def t7b : TrackMetadata := { title := "abc", artist := "art", duration_ms := 200000 }

def c7A : Candidate := { video_id := "v", title := "abc (remix", artists := ["art"], duration := 200 }

def c7B : Candidate :=
  { video_id := "v", title := "abc (remix cover)", artists := ["art"], duration := 200 }

theorem conf_t7a_plain :
    AntigravityResolver.calculate_confidence t7a c7plain = (119/2, 119/200) := by
  have hts : AntigravityResolver.calculate_title_similarity "song instrumental" "song" = 7/10 := by
    rw [AntigravityResolver.title_sim_jaccard (by decide) (by decide) (by decide) (by decide)
      (by decide) (by decide)]
    have hi : interCard (pyLower (AntigravityResolver.clean_title "song instrumental"))
        (pyLower (AntigravityResolver.clean_title "song")) = 1 := by decide
    have hu2 : unionCard (pyLower (AntigravityResolver.clean_title "song instrumental"))
        (pyLower (AntigravityResolver.clean_title "song")) = 2 := by decide
    rw [hi, hu2, if_pos (by decide)]
    norm_num
  have has_ : AntigravityResolver.calculate_artist_similarity "art" ["art"] = 1 :=
    AntigravityResolver.artist_sim_exact_head (by decide) [] rfl
  have hpen : AntigravityResolver.calculate_unwanted_penalty "song" = 0 := by decide
  simp only [AntigravityResolver.calculate_confidence, t7a, c7plain, hts, has_, hpen]
  norm_num [AntigravityResolver.calculate_duration_similarity, get_duration_seconds]
  rw [if_neg (by decide), if_neg (by decide)]
  norm_num

theorem conf_t7a_exact :
    AntigravityResolver.calculate_confidence t7a { c7plain with title := t7a.title } =
      (45, 9/20) := by
  have hts : AntigravityResolver.calculate_title_similarity "song instrumental"
      "song instrumental" = 1 :=
    AntigravityResolver.title_sim_exact (by decide) (by decide) rfl
  have has_ : AntigravityResolver.calculate_artist_similarity "art" ["art"] = 1 :=
    AntigravityResolver.artist_sim_exact_head (by decide) [] rfl
  have hpen : AntigravityResolver.calculate_unwanted_penalty "song instrumental" = 20 := by
    decide
  simp only [AntigravityResolver.calculate_confidence, t7a, c7plain, hts, has_, hpen]
  norm_num [AntigravityResolver.calculate_duration_similarity, get_duration_seconds]
  rw [if_neg (by decide), if_pos (by decide)]
  norm_num

theorem conf_t7b_A : AntigravityResolver.calculate_confidence t7b c7A = (59/2, 59/200) := by
  have hts : AntigravityResolver.calculate_title_similarity "abc" "abc (remix" = 7/10 := by
    rw [AntigravityResolver.title_sim_jaccard (by decide) (by decide) (by decide) (by decide)
      (by decide) (by decide)]
    have hi : interCard (pyLower (AntigravityResolver.clean_title "abc"))
        (pyLower (AntigravityResolver.clean_title "abc (remix")) = 1 := by decide
    have hu2 : unionCard (pyLower (AntigravityResolver.clean_title "abc"))
        (pyLower (AntigravityResolver.clean_title "abc (remix")) = 2 := by decide
    rw [hi, hu2, if_pos (by decide)]
    norm_num
  have has_ : AntigravityResolver.calculate_artist_similarity "art" ["art"] = 1 :=
    AntigravityResolver.artist_sim_exact_head (by decide) [] rfl
  have hpen : AntigravityResolver.calculate_unwanted_penalty "abc (remix" = 30 := by decide
  simp only [AntigravityResolver.calculate_confidence, t7b, c7A, hts, has_, hpen]
  norm_num [AntigravityResolver.calculate_duration_similarity, get_duration_seconds]
  rw [if_neg (by decide), if_neg (by decide)]
  norm_num

theorem conf_t7b_B : AntigravityResolver.calculate_confidence t7b c7B = (40, 2/5) := by
  have hts : AntigravityResolver.calculate_title_similarity "abc" "abc (remix cover)" = 1 :=
    AntigravityResolver.title_sim_exact (by decide) (by decide) (by decide)
  have has_ : AntigravityResolver.calculate_artist_similarity "art" ["art"] = 1 :=
    AntigravityResolver.artist_sim_exact_head (by decide) [] rfl
  have hpen : AntigravityResolver.calculate_unwanted_penalty "abc (remix cover)" = 50 := by
    decide
  simp only [AntigravityResolver.calculate_confidence, t7b, c7B, hts, has_, hpen]
  norm_num [AntigravityResolver.calculate_duration_similarity, get_duration_seconds]
  rw [if_neg (by decide), if_neg (by decide)]
  norm_num

/-- Counterexample to C7 as stated, in both directions.  (1) Exact-title
monotonicity fails: the target title is "song instrumental"; replacing the
candidate's title "song" by the exactly matching "song instrumental" DROPS
confidence from 0.595 to 0.45 (the penalty scan and the instrumental penalty
act on the raw candidate title, outweighing the title-similarity and
exact-match gains).  (2) Indicator anti-monotonicity fails: appending the
disqualifying indicator "cover" (absent from the target title and from the
original candidate title) to "abc (remix" to give "abc (remix cover)" RAISES
confidence from 0.295 to 0.4, because the appended text completes a
removable "(remix ...)" parenthetical, lifting cleaned-title similarity to an
exact match worth more than the added penalty. -/
theorem C7_counterexample :
    (AntigravityResolver.calculate_confidence t7a { c7plain with title := t7a.title }).2 <
      (AntigravityResolver.calculate_confidence t7a c7plain).2 ∧
    (AntigravityResolver.calculate_confidence t7b c7A).2 <
      (AntigravityResolver.calculate_confidence t7b c7B).2 ∧
    strContains (pyLower c7B.title) "cover" = true ∧
    strContains (pyLower c7A.title) "cover" = false ∧
    strContains (pyLower t7b.title) "cover" = false := by
  refine ⟨?_, ?_, by decide, by decide, by decide⟩
  · rw [conf_t7a_exact, conf_t7a_plain]
    norm_num
  · rw [conf_t7b_A, conf_t7b_B]
    norm_num

/-! ## C2 -/

/-- Counterexample to C2 as stated: the collision check does NOT use the §4.2
(resolver) similarity functions — `AntigravityISRCResolver` has its own
title similarity, and the two disagree across the 0.5 acceptance bound.  With
authoritative title "abc (live)" and resolved title "abc xyz" the collision
check computes 1/3 (< 0.5: collision, identifier result discarded) while the
§4.2 title similarity computes 0.7 (≥ 0.5: would accept). -/
theorem C2_counterexample :
    AntigravityISRCResolver.calculate_title_similarity "abc (live)" "abc xyz" = 1/3 ∧
    AntigravityResolver.calculate_title_similarity "abc (live)" "abc xyz" = 7/10 ∧
    AntigravityISRCResolver.calculate_title_similarity "abc (live)" "abc xyz" < 1/2 ∧
    ¬(AntigravityResolver.calculate_title_similarity "abc (live)" "abc xyz" < 1/2) := by
  have h1 : AntigravityISRCResolver.calculate_title_similarity "abc (live)" "abc xyz"
      = 1/3 := by
    simp only [AntigravityISRCResolver.calculate_title_similarity]
    rw [if_neg (by decide), if_neg (by decide), if_neg (by decide), if_neg (by decide),
      if_neg (by decide), if_pos (by decide)]
    have hi : interCard (AntigravityISRCResolver.cleanVersionSuffix (pyLower "abc (live)"))
        (AntigravityISRCResolver.cleanVersionSuffix (pyLower "abc xyz")) = 1 := by decide
    have hu2 : unionCard (AntigravityISRCResolver.cleanVersionSuffix (pyLower "abc (live)"))
        (AntigravityISRCResolver.cleanVersionSuffix (pyLower "abc xyz")) = 3 := by decide
    rw [hi, hu2]
    norm_num
  have h2 : AntigravityResolver.calculate_title_similarity "abc (live)" "abc xyz"
      = 7/10 := by
    rw [AntigravityResolver.title_sim_jaccard (by decide) (by decide) (by decide) (by decide)
      (by decide) (by decide)]
    have hi : interCard (pyLower (AntigravityResolver.clean_title "abc (live)"))
        (pyLower (AntigravityResolver.clean_title "abc xyz")) = 1 := by decide
    have hu2 : unionCard (pyLower (AntigravityResolver.clean_title "abc (live)"))
        (pyLower (AntigravityResolver.clean_title "abc xyz")) = 2 := by decide
    rw [hi, hu2, if_pos (by decide)]
    norm_num
  exact ⟨h1, h2, by rw [h1]; norm_num, by rw [h2]; norm_num⟩

/-- C2 amended: the collision check compares the candidate against the
authoritative metadata using the identifier pipeline's OWN dedicated
similarity functions (`AntigravityISRCResolver._calculate_title_similarity` /
`_calculate_artist_similarity`, not those of §4.2): if either bound
(title ≥ 0.5, artist ≥ 0.7) fails, the identifier result is discarded and
metadata-only resolution re-runs with the identifier field cleared
(`'isrc': None`); if both bounds hold, the identifier result is returned
exactly when its video id is non-empty and passes the accessibility probe,
and otherwise the same identifier-cleared re-run happens. -/
theorem C2_amended (sp : SpotifyClient) (yt : YTClient) (isrc : String)
    (m : ISRCMetadata) (r : ResolvedTrack)
    (hm : AntigravityISRCResolver.get_isrc_metadata sp isrc = some m)
    (hr : YTMusicResolver.resolve_track (some yt) (3/4) 20
      (AntigravityISRCResolver.authTrackDict m) = some r) :
    ((AntigravityISRCResolver.calculate_title_similarity m.title r.title < 1/2 ∨
      AntigravityISRCResolver.calculate_artist_similarity m.artist r.artists < 7/10) →
      AntigravityISRCResolver.resolve_by_isrc sp yt isrc =
        YTMusicResolver.resolve_track (some yt) (3/4) 20
          (AntigravityISRCResolver.fallbackTrackDict m)) ∧
    (¬(AntigravityISRCResolver.calculate_title_similarity m.title r.title < 1/2 ∨
       AntigravityISRCResolver.calculate_artist_similarity m.artist r.artists < 7/10) →
      AntigravityISRCResolver.resolve_by_isrc sp yt isrc =
        (if r.video_id ≠ "" ∧ AntigravityISRCResolver.validate_video_id yt r.video_id
         then some r
         else YTMusicResolver.resolve_track (some yt) (3/4) 20
           (AntigravityISRCResolver.fallbackTrackDict m))) := by
  simp only [AntigravityISRCResolver.resolve_by_isrc, hm, hr]
  constructor
  · intro h
    rw [if_pos h]
  · intro h
    rw [if_neg h]

/-- Concrete Spotify record, metadata and clients for the C2 witness: the
ISRC "ISRC1" resolves (via the +40 ISRC points) to a candidate titled "zzz"
that fails the collision title bound. -/
def spT2 : SpotifyTrack :=
  { name := "song", artistNames := ["art"], albumName := "alb",
    album_release_date := "2020-01-01", duration_ms := 200000,
    external_isrc := some "ISRC1" }

def sp2 : SpotifyClient := ⟨fun _ => .ok [spT2]⟩

def m2 : ISRCMetadata :=
  { title := "song", artist := "art", album := "alb", duration_ms := 200000,
    year := "2020", isrc := "ISRC1" }

def r2bad : SearchResult :=
  { resultType := "song", videoId := "v", title := "zzz", artists_raw := ["art"],
    duration_seconds := 200, isrc := "ISRC1" }

def yt2 : YTClient :=
  { search := fun _ _ _ => .ok [r2bad]
    get_watch_playlist := fun _ => .error (.external "unused") }

def c2bad : Candidate :=
  { video_id := "v", title := "zzz", artists := ["art"], album := "",
    duration := 200, isrc := "ISRC1", source := "query_search" }

def r2res : ResolvedTrack :=
  { video_id := "v", title := "zzz", artists := ["art"], album := "",
    duration := 200, isrc := "ISRC1", confidence := 3/4,
    url := "https://music.youtube.com/watch?v=v" }

theorem conf_auth2 :
    AntigravityResolver.calculate_confidence
      (YTMusicResolver.targetOfTrack (AntigravityISRCResolver.authTrackDict m2)) c2bad =
      (75, 3/4) := by
  have hts : AntigravityResolver.calculate_title_similarity "song" "zzz" = 0 := by
    rw [AntigravityResolver.title_sim_jaccard (by decide) (by decide) (by decide) (by decide)
      (by decide) (by decide)]
    have hi : interCard (pyLower (AntigravityResolver.clean_title "song"))
        (pyLower (AntigravityResolver.clean_title "zzz")) = 0 := by decide
    have hu2 : unionCard (pyLower (AntigravityResolver.clean_title "song"))
        (pyLower (AntigravityResolver.clean_title "zzz")) = 2 := by decide
    rw [hi, hu2, if_neg (by decide)]
    norm_num
  have has_ : AntigravityResolver.calculate_artist_similarity "art" ["art"] = 1 :=
    AntigravityResolver.artist_sim_exact_head (by decide) [] rfl
  have hpen : AntigravityResolver.calculate_unwanted_penalty "zzz" = 0 := by decide
  simp only [AntigravityResolver.calculate_confidence, YTMusicResolver.targetOfTrack,
    AntigravityISRCResolver.authTrackDict, m2, c2bad, hts, has_, hpen]
  norm_num [AntigravityResolver.calculate_duration_similarity, get_duration_seconds]
  rw [if_neg (by decide), if_neg (by decide), if_neg (by decide)]
  norm_num

theorem resolve_track_auth2 :
    YTMusicResolver.resolve_track (some yt2) (3/4) 20
      (AntigravityISRCResolver.authTrackDict m2) = some r2res := by
  have hg : YTMusicResolver.gatherCandidates yt2
      (YTMusicResolver.targetOfTrack (AntigravityISRCResolver.authTrackDict m2)) 20 =
      [c2bad] := by decide
  have hres : AntigravityResolver.resolve (3/4)
      (YTMusicResolver.targetOfTrack (AntigravityISRCResolver.authTrackDict m2)) [c2bad] =
      some (c2bad, 3/4) := by
    have h : AntigravityResolver.resolve (3/4)
        (YTMusicResolver.targetOfTrack (AntigravityISRCResolver.authTrackDict m2)) [c2bad] =
        some (c2bad, (AntigravityResolver.calculate_confidence
          (YTMusicResolver.targetOfTrack (AntigravityISRCResolver.authTrackDict m2))
          c2bad).2) :=
      AntigravityResolver.resolve_complete [] [] rfl
        (by rw [conf_auth2]; try norm_num)
        (by rw [conf_auth2]; try norm_num)
        (by simp)
        (by intro d hd
            simp at hd
            subst hd
            exact le_rfl)
    rw [conf_auth2] at h
    exact h
  simp only [YTMusicResolver.resolve_track, hg]
  rw [if_neg (by decide)]
  simp only [hres]
  rfl

theorem isrc_title_sim_song_zzz :
    AntigravityISRCResolver.calculate_title_similarity "song" "zzz" = 0 := by
  simp only [AntigravityISRCResolver.calculate_title_similarity]
  rw [if_neg (by decide), if_neg (by decide), if_neg (by decide), if_neg (by decide),
    if_neg (by decide), if_pos (by decide)]
  have hi : interCard (AntigravityISRCResolver.cleanVersionSuffix (pyLower "song"))
      (AntigravityISRCResolver.cleanVersionSuffix (pyLower "zzz")) = 0 := by decide
  have hu2 : unionCard (AntigravityISRCResolver.cleanVersionSuffix (pyLower "song"))
      (AntigravityISRCResolver.cleanVersionSuffix (pyLower "zzz")) = 2 := by decide
  rw [hi, hu2]
  norm_num

/-- Witness for the amended C2: on the concrete collision scenario (the
identifier-biased resolution returns a candidate titled "zzz" against
authoritative title "song"), the pipeline discards the identifier result and
re-runs metadata-only resolution with the identifier cleared. -/
theorem C2_amended_witness :
    AntigravityISRCResolver.resolve_by_isrc sp2 yt2 "ISRC1" =
      YTMusicResolver.resolve_track (some yt2) (3/4) 20
        (AntigravityISRCResolver.fallbackTrackDict m2) :=
  (C2_amended sp2 yt2 "ISRC1" m2 r2res (by decide) resolve_track_auth2).1
    (Or.inl (by rw [show m2.title = "song" from rfl, show r2res.title = "zzz" from rfl,
      isrc_title_sim_song_zzz]; norm_num))

/-! ## C1 -/

/-- The spec's end-to-end scenario: target with no identifier. -/
def track1 : TrackDict := { title := "Song", artist := "Artist", duration_ms := 200000 }

def rRemix : SearchResult :=
  { resultType := "song", videoId := "v1", title := "Song (Remix)",
    artists_raw := ["Artist"], duration_seconds := 200 }

def rLive : SearchResult :=
  { resultType := "song", videoId := "v2", title := "Song (Live)",
    artists_raw := ["Artist"], duration_seconds := 200 }

/-- A client whose search returns only the remix and live candidates. -/
def c1Client : YTClient :=
  { search := fun _ _ _ => .ok [rRemix, rLive]
    get_watch_playlist := fun _ => .error (.external "unused") }

def cRemix : Candidate :=
  { video_id := "v1", title := "Song (Remix)", artists := ["Artist"], album := "",
    duration := 200, isrc := "", source := "query_search" }

def cLive : Candidate :=
  { video_id := "v2", title := "Song (Live)", artists := ["Artist"], album := "",
    duration := 200, isrc := "", source := "query_search" }

def resolved1 : ResolvedTrack :=
  { video_id := "v1", title := "Song (Remix)", artists := ["Artist"], album := "",
    duration := 200, isrc := "", confidence := 3/5,
    url := "https://music.youtube.com/watch?v=v1" }

theorem conf_t1_remix :
    AntigravityResolver.calculate_confidence (YTMusicResolver.targetOfTrack track1) cRemix =
      (60, 3/5) := by
  have hts : AntigravityResolver.calculate_title_similarity "Song" "Song (Remix)" = 1 :=
    AntigravityResolver.title_sim_exact (by decide) (by decide) (by decide)
  have has_ : AntigravityResolver.calculate_artist_similarity "Artist" ["Artist"] = 1 :=
    AntigravityResolver.artist_sim_exact_head (by decide) [] rfl
  have hpen : AntigravityResolver.calculate_unwanted_penalty "Song (Remix)" = 30 := by decide
  simp only [AntigravityResolver.calculate_confidence, YTMusicResolver.targetOfTrack,
    track1, cRemix, hts, has_, hpen]
  norm_num [AntigravityResolver.calculate_duration_similarity, get_duration_seconds]
  rw [if_neg (by decide), if_neg (by decide)]
  norm_num

theorem conf_t1_live :
    AntigravityResolver.calculate_confidence (YTMusicResolver.targetOfTrack track1) cLive =
      (60, 3/5) := by
  have hts : AntigravityResolver.calculate_title_similarity "Song" "Song (Live)" = 1 :=
    AntigravityResolver.title_sim_exact (by decide) (by decide) (by decide)
  have has_ : AntigravityResolver.calculate_artist_similarity "Artist" ["Artist"] = 1 :=
    AntigravityResolver.artist_sim_exact_head (by decide) [] rfl
  have hpen : AntigravityResolver.calculate_unwanted_penalty "Song (Live)" = 30 := by decide
  simp only [AntigravityResolver.calculate_confidence, YTMusicResolver.targetOfTrack,
    track1, cLive, hts, has_, hpen]
  norm_num [AntigravityResolver.calculate_duration_similarity, get_duration_seconds]
  rw [if_neg (by decide), if_neg (by decide)]
  norm_num

/-- Evaluation of the metadata fallback (threshold 0.50) on the scenario:
it ACCEPTS the remix candidate with confidence 0.60. -/
theorem c1_fallback_eval :
    YTMusicResolver.resolve_with_ytmusic (some c1Client) (1/2) track1 = some resolved1 := by
  have hg : YTMusicResolver.gatherCandidates c1Client
      (YTMusicResolver.targetOfTrack track1) 20 = [cRemix, cLive] := by decide
  have hres : AntigravityResolver.resolve (1/2)
      (YTMusicResolver.targetOfTrack track1) [cRemix, cLive] = some (cRemix, 3/5) := by
    have h : AntigravityResolver.resolve (1/2)
        (YTMusicResolver.targetOfTrack track1) [cRemix, cLive] =
        some (cRemix, (AntigravityResolver.calculate_confidence
          (YTMusicResolver.targetOfTrack track1) cRemix).2) :=
      AntigravityResolver.resolve_complete [] [cLive] rfl
        (by rw [conf_t1_remix]; try norm_num)
        (by rw [conf_t1_remix]; try norm_num)
        (by simp)
        (by intro d hd
            rcases List.mem_cons.mp hd with rfl | hd
            · exact le_rfl
            · simp at hd
              subst hd
              rw [conf_t1_remix, conf_t1_live])
    rw [conf_t1_remix] at h
    exact h
  simp only [YTMusicResolver.resolve_with_ytmusic, YTMusicResolver.resolve_track, hg]
  rw [if_neg (by decide)]
  simp only [hres]
  rfl

/-- Counterexample to C1 as stated: in the spec's scenario (no identifier,
search returns only "Song (Remix)" and "Song (Live)", artist and duration
matching), each candidate's confidence is exactly 0.60 — the −30 remix/live
penalty is offset by the +20 exact-match bonus, because title cleaning strips
the "(Remix)"/"(Live)" qualifier before comparison — which is NOT below the
0.50 threshold, and the operational pipeline does not return UNRESOLVED. -/
theorem C1_counterexample :
    (AntigravityResolver.calculate_confidence
      (YTMusicResolver.targetOfTrack track1) cRemix).2 = 3/5 ∧
    (AntigravityResolver.calculate_confidence
      (YTMusicResolver.targetOfTrack track1) cLive).2 = 3/5 ∧
    ¬((AntigravityResolver.calculate_confidence
      (YTMusicResolver.targetOfTrack track1) cRemix).2 < 1/2) ∧
    SmartResolver.resolve_track none (some c1Client) track1 ≠ none := by
  refine ⟨by rw [conf_t1_remix], by rw [conf_t1_live], by rw [conf_t1_remix]; norm_num, ?_⟩
  have h : SmartResolver.resolve_track none (some c1Client) track1 = some resolved1 :=
    c1_fallback_eval
  rw [h]
  simp

/-- C1 amended: in the scenario of the claim the pipeline ACCEPTS rather than
returns UNRESOLVED: whatever the state of the identifier resolver (the target
has no identifier, so the identifier-first step is skipped), the operational
pipeline returns the first candidate, "Song (Remix)", with confidence 0.60 ≥
0.50 — each such candidate's confidence equals 0.60, not a value below
0.50. -/
theorem C1_accepts_remix (st : Option (SpotifyClient × YTClient)) :
    SmartResolver.resolve_track st (some c1Client) track1 = some resolved1 := by
  cases st with
  | none => exact c1_fallback_eval
  | some p =>
    obtain ⟨sp, yt⟩ := p
    simp only [SmartResolver.resolve_track]
    rw [if_neg (by decide)]
    exact c1_fallback_eval
